import Mathlib

/-!
Verification of the VolbyCZ scraper caching and extraction layer
(`volbycz_scraper/scraper.py`).

The embedding models Python values with the inductive type `PyObj`
(JSON-style values plus the three dataclasses of the module), Python
exceptions with `PyErr`, fallible code with `Except`, floats as exact
rationals, the wall clock as an explicit `now : ℚ` argument (frozen
within one call), the on-disk cache file as a `DiskState`, and the
network as explicit response tables (`YearNet`).  Python `str()` of a
float is modelled for terminating decimals, which covers every value the
module produces; `str.strip()` is modelled for the ASCII whitespace that
`Char.isWhitespace` recognises.
-/

/-- Python exceptions that the scraper module can raise.
`dataUnavailable` is the module's `ElectionDataUnavailable`. -/
inductive PyErr where
  | valueError
  | typeError
  | attributeError
  | runtimeError (msg : String)
  | dataUnavailable (year : Int) (resource : String)
      (status : Option Int) (reason : Option String)
deriving DecidableEq

/-- `@dataclass PartyResult` (scraper.py:123). -/
structure PartyResult where
  number : Int
  name : String
  votes : Int
  vote_share : ℚ
deriving DecidableEq

/-- `@dataclass SeatAllocation` (scraper.py:131). -/
structure SeatAllocation where
  party : String
  mandates : Int
  color : Option String
deriving DecidableEq

/-- `@dataclass RegionLeader` (scraper.py:138). -/
structure RegionLeader where
  region_id : Int
  region_name : String
  leading_party : String
  leading_percent : Option ℚ
  votes : Option Int
  processed_percent : Option ℚ
  color : Option String
  detail_url : String
deriving DecidableEq

/-! ### Kernel-reducible rational arithmetic

Mathlib's `+`, `-`, `*`, `/` on `ℚ` do not reduce inside `decide`
proofs, so the embedding computes with `mkRat`-based helpers and the
bridge lemmas below translate them back to the standard operations for
the theorems. -/

def ratOfInt (n : Int) : ℚ := mkRat n 1

def ratAdd (a b : ℚ) : ℚ :=
  mkRat (a.num * b.den + b.num * a.den) (a.den * b.den)

def ratSub (a b : ℚ) : ℚ :=
  mkRat (a.num * b.den - b.num * a.den) (a.den * b.den)

def ratMul (a b : ℚ) : ℚ := mkRat (a.num * b.num) (a.den * b.den)

def ratAbs (q : ℚ) : ℚ := mkRat q.num.natAbs q.den

/-- Exact value of the float division `a / b` of two machine ints. -/
def intDivRat (a b : Int) : ℚ :=
  if b < 0 then mkRat (-a) b.natAbs else mkRat a b.natAbs

/-- Python values flowing through the module: JSON-style data (dicts
modelled as association lists in insertion order, as Python dicts
preserve insertion order) plus instances of the three dataclasses. -/
inductive PyObj where
  | none
  | bool (b : Bool)
  | int (n : Int)
  | float (q : ℚ)
  | str (s : String)
  | list (items : List PyObj)
  | dict (entries : List (String × PyObj))
  | party (p : PartyResult)
  | seat (s : SeatAllocation)
  | region (r : RegionLeader)

/-- Python truthiness (`bool(x)`). Dataclass instances are truthy. -/
def pyTruthy : PyObj → Bool
  | .none => false
  | .bool b => b
  | .int n => n != 0
  | .float q => q != 0
  | .str s => s ≠ ""
  | .list l => !l.isEmpty
  | .dict es => !es.isEmpty
  | .party _ => true
  | .seat _ => true
  | .region _ => true

/-- Python `x or y`: `y` when `x` is falsy, else `x`. -/
def pyOr (x y : PyObj) : PyObj := if pyTruthy x then x else y

/-- Python numeric view: `bool` counts as a number (`True == 1`). -/
def pyToNum : PyObj → Option ℚ
  | .bool b => some (if b then 1 else 0)
  | .int n => some (ratOfInt n)
  | .float q => some q
  | _ => Option.none

/-- Python `x == m` for an int literal `m`: numeric cross-type equality,
false for non-numeric values. -/
def pyEqNum (v : PyObj) (m : Int) : Bool :=
  match pyToNum v with
  | some q => q = ratOfInt m
  | Option.none => false

/-- First-match association-list lookup (keys are unique in every dict
the module builds). -/
def assocFind {α : Type} (es : List (String × α)) (k : String) : Option α :=
  match es with
  | [] => Option.none
  | (k2, v) :: rest => if k2 = k then some v else assocFind rest k

/-- Python `d[k] = v`: overwrite in place, else append (insertion order). -/
def assocSet {α : Type} (es : List (String × α)) (k : String) (v : α) :
    List (String × α) :=
  match es with
  | [] => [(k, v)]
  | (k2, v2) :: rest =>
      if k2 = k then (k, v) :: rest else (k2, v2) :: assocSet rest k v

/-- Python `d.pop(k, None)`: drop the binding for `k` if present. -/
def assocErase {α : Type} (es : List (String × α)) (k : String) :
    List (String × α) :=
  match es with
  | [] => []
  | (k2, v2) :: rest =>
      if k2 = k then rest else (k2, v2) :: assocErase rest k

/-- `dict.get(k)` on a `PyObj` dict. -/
def pyGet (es : List (String × PyObj)) (k : String) : PyObj :=
  (assocFind es k).getD .none

/-- `dict.get(k, d)` on a `PyObj` dict. -/
def pyGetD (es : List (String × PyObj)) (k : String) (d : PyObj) : PyObj :=
  (assocFind es k).getD d

/-- ASCII lowercase of a string (for case-insensitive header lookup). -/
def strLower (s : String) : String := String.mk (s.toList.map Char.toLower)

/-- Lookup in a `requests` `CaseInsensitiveDict` of headers. -/
def headerGetCI (hs : List (String × String)) (k : String) : Option String :=
  (hs.find? (fun p => strLower p.1 = strLower k)).map (fun p => p.2)

/-- Python `str.strip()` on a character list (ASCII whitespace). -/
def pyStripList (l : List Char) : List Char :=
  ((l.dropWhile Char.isWhitespace).reverse.dropWhile Char.isWhitespace).reverse

/-- A character kept by the regex substitution `[^0-9-]` → `""`. -/
def isNumChar (c : Char) : Bool := c.isDigit || c == '-'

/-- `_number_pattern.sub("", text)` (scraper.py:52,106). -/
def stripNonNumber (l : List Char) : List Char := l.filter isNumChar

/-- Value of a decimal digit string, most significant digit first. -/
def digitsToNat (l : List Char) : Nat :=
  l.foldl (fun acc c => 10 * acc + (c.toNat - 48)) 0

/-- Python `int(s)` restricted to the alphabet `[0-9-]` that survives
`stripNonNumber`: an optional single leading minus followed by at least
one digit; anything else raises `ValueError` (modelled as `none`). -/
def parsePyInt : List Char → Option Int
  | [] => Option.none
  | c :: rest =>
      if c = '-' then
        (if !rest.isEmpty && rest.all Char.isDigit
         then some (-(digitsToNat rest : Int)) else Option.none)
      else
        (if (c :: rest).all Char.isDigit
         then some (digitsToNat (c :: rest) : Int) else Option.none)

/-- Decimal digits, fuel-recursive so that it reduces definitionally
(`n` itself always bounds the number of divisions by ten). -/
def natDigitsAux : Nat → Nat → List Char
  | 0, n => [Char.ofNat (48 + n % 10)]
  | fuel + 1, n =>
      if n < 10 then [Char.ofNat (48 + n)]
      else natDigitsAux fuel (n / 10) ++ [Char.ofNat (48 + n % 10)]

/-- Decimal digit characters of a natural number (Python `str(n)` for
`n : Nat`). -/
def natDigitsRepr (n : Nat) : List Char := natDigitsAux n n

/-- Python `str(n)` for an int `n`. -/
def intRepr (n : Int) : List Char :=
  if n < 0 then '-' :: natDigitsRepr n.natAbs else natDigitsRepr n.natAbs

/-- Python `round(q)`: round half to even (banker's rounding). -/
def pyRound (q : ℚ) : Int :=
  let f := ⌊q⌋
  let frac := ratSub q (ratOfInt f)
  if frac < mkRat 1 2 then f
  else if mkRat 1 2 < frac then f + 1
  else if f % 2 = 0 then f else f + 1

/-- Python `round(q, 2)` on our exact-rational float model. -/
def pyRound2 (q : ℚ) : ℚ := intDivRat (pyRound (ratMul q (ratOfInt 100))) 100

/-- Fractional decimal digits of `0 ≤ q < 1`, stopping at zero (fuel
bounds the expansion; every Python float terminates well within it). -/
def decimalFracDigits : Nat → ℚ → List Char
  | 0, _ => []
  | fuel + 1, q =>
      if q = 0 then []
      else
        let d := (⌊ratMul q (ratOfInt 10)⌋).toNat
        Char.ofNat (48 + d) ::
          decimalFracDigits fuel (ratSub (ratMul q (ratOfInt 10)) (ratOfInt d))

/-- Python `str()`/`repr()` of a float, modelled for terminating
decimals (exact on every value this module produces; only the
integral-float branch is ever consumed by `normalize_number`). -/
def pyFloatRepr (q : ℚ) : List Char :=
  let sign : List Char := if q < 0 then ['-'] else []
  let a := ratAbs q
  if a.den = 1 then sign ++ natDigitsRepr a.num.toNat ++ ['.', '0']
  else
    let frac := decimalFracDigits 64 (ratSub a (ratOfInt ⌊a⌋))
    sign ++ natDigitsRepr (⌊a⌋).toNat ++ '.' :: (if frac.isEmpty then ['0'] else frac)

/-- Python string repr with single quotes (element repr inside
containers). -/
def strReprChars (s : String) : List Char := '\'' :: s.toList ++ ['\'']

def optStrReprChars : Option String → List Char
  | Option.none => "None".toList
  | some s => strReprChars s

mutual

/-- Python `repr()` of a value (used by `str()` for container
elements). The dataclass cases model the generated dataclass repr. -/
def pyReprChars : PyObj → List Char
  | .none => "None".toList
  | .bool b => if b then "True".toList else "False".toList
  | .int n => intRepr n
  | .float q => pyFloatRepr q
  | .str s => strReprChars s
  | .list items => '[' :: pyReprList items ++ [']']
  | .dict es => "\x7b".toList ++ pyReprEntries es ++ "\x7d".toList
  | .party p =>
      "PartyResult(number=".toList ++ intRepr p.number ++
      ", name=".toList ++ strReprChars p.name ++
      ", votes=".toList ++ intRepr p.votes ++
      ", vote_share=".toList ++ pyFloatRepr p.vote_share ++ [')']
  | .seat s =>
      "SeatAllocation(party=".toList ++ strReprChars s.party ++
      ", mandates=".toList ++ intRepr s.mandates ++
      ", color=".toList ++ optStrReprChars s.color ++ [')']
  | .region r =>
      "RegionLeader(region_id=".toList ++ intRepr r.region_id ++
      ", region_name=".toList ++ strReprChars r.region_name ++ [')']

def pyReprList : List PyObj → List Char
  | [] => []
  | [x] => pyReprChars x
  | x :: rest => pyReprChars x ++ ", ".toList ++ pyReprList rest

def pyReprEntries : List (String × PyObj) → List Char
  | [] => []
  | [(k, v)] => strReprChars k ++ ": ".toList ++ pyReprChars v
  | (k, v) :: rest =>
      strReprChars k ++ ": ".toList ++ pyReprChars v ++ ", ".toList ++
      pyReprEntries rest

end

/-- Python `str()` of a value: identity on strings, `repr` otherwise. -/
def pyStrChars : PyObj → List Char
  | .str s => s.toList
  | v => pyReprChars v

/-- The shared string tail of `normalize_number` (scraper.py:103-109):
strip whitespace, check for empty or the `"-"` placeholder, delete all
characters but digits and `-`, then `int(digits)`, which raises
`ValueError` when the remainder is not a valid integer literal. -/
def normalizeNumText (l : List Char) : Except PyErr (Option Int) :=
  let text := pyStripList l
  if text = [] ∨ text = ['-'] then .ok Option.none
  else
    let digits := stripNonNumber text
    if digits = [] then .ok Option.none
    else
      match parsePyInt digits with
      | some n => .ok (some n)
      | Option.none => .error .valueError

/-- `normalize_number` (scraper.py:94-109). `None` passes through; ints
(but not bools) pass through; non-integral floats are rounded; every
other value is stringified and sent through the text path. -/
def normalize_number (value : PyObj) : Except PyErr (Option Int) :=
  match value with
  | .none => .ok Option.none
  | .int n => .ok (some n)
  | .float q =>
      if q.den ≠ 1 then .ok (some (pyRound q))
      else normalizeNumText (pyFloatRepr q)
  | v => normalizeNumText (pyStrChars v)

/-- Head match of `-?[0-9]+(?:\.[0-9]+)?` (commas already replaced). -/
def percentMatchNum (l : List Char) : Option (List Char) :=
  let ds := l.takeWhile Char.isDigit
  if ds.isEmpty then Option.none
  else
    match l.dropWhile Char.isDigit with
    | '.' :: r2 =>
        let fs := r2.takeWhile Char.isDigit
        if fs.isEmpty then some ds else some (ds ++ '.' :: fs)
    | _ => some ds

def percentMatchAt (l : List Char) : Option (List Char) :=
  match l with
  | '-' :: rest => (percentMatchNum rest).map (fun m => '-' :: m)
  | _ => percentMatchNum l

/-- `_percent_pattern.search` (scraper.py:53): leftmost match. -/
def percentSearch : List Char → Option (List Char)
  | [] => Option.none
  | c :: rest =>
      match percentMatchAt (c :: rest) with
      | some m => some m
      | Option.none => percentSearch rest

/-- Exact rational value of a matched decimal literal. -/
def decimalToRatPos (l : List Char) : ℚ :=
  let ip := l.takeWhile Char.isDigit
  match l.dropWhile Char.isDigit with
  | '.' :: fs =>
      ratAdd (ratOfInt (digitsToNat ip))
        (mkRat (digitsToNat fs) ((10 : Nat) ^ fs.length))
  | _ => ratOfInt (digitsToNat ip)

def decimalToRat (m : List Char) : ℚ :=
  match m with
  | '-' :: rest => ratSub (ratOfInt 0) (decimalToRatPos rest)
  | _ => decimalToRatPos m

/-- `normalize_percentage` (scraper.py:112-120): numbers (not bools)
pass through as floats; otherwise the first signed decimal in
`str(value)` with commas mapped to dots, or `None`. Total. -/
def normalize_percentage (value : PyObj) : Option ℚ :=
  match value with
  | .none => Option.none
  | .int n => some (ratOfInt n)
  | .float q => some q
  | v =>
      let text := (pyStrChars v).map (fun c => if c = ',' then '.' else c)
      (percentSearch text).map decimalToRat

/-! ## Module constants (scraper.py:16-25) -/

def PRIMARY_RESOURCE : String := "vysled/celkem.json"

def CACHE_VERSION : Int := 1

def PARTIAL_REFRESH_INTERVAL : Int := 60

def FINAL_REFRESH_INTERVAL : Int := 3600

/-- `DATA_BASE_URL_TEMPLATE.format(year=year)`. -/
def buildDataBase (year : Int) : String :=
  "https://www.volby.cz/appdata/ps" ++ String.mk (intRepr year) ++ "/"

/-- `APP_BASE_URL_TEMPLATE.format(year=year)`. -/
def buildAppBase (year : Int) : String :=
  "https://www.volby.cz/app/ps" ++ String.mk (intRepr year) ++ "/"

/-- `urljoin(base, resource)` for the relative resources the module
uses (the base ends in a slash and no resource starts with one). -/
def buildDataUrl (year : Int) (resource : String) : String :=
  buildDataBase year ++ resource

def buildAppUrl (year : Int) (resource : String) : String :=
  buildAppBase year ++ resource

/-! ## Network model -/

/-- The text of an HTTP response body, as the code inspects it: whether
the lowered text contains `"chyba 404"` or `"page not found"`, and what
`json.loads` would make of it (`none` when it raises). -/
structure HttpBody where
  notFoundMarker : Bool
  json : Option PyObj

/-- Outcome of `session.get` on a data resource. -/
inductive FetchOutcome where
  | transportError
  | resp (status : Int) (headers : List (String × String)) (body : HttpBody)

/-- Outcome of the conditional GET in `_revalidate_primary_resource`
(its body is never read by the code, so it is not modelled). -/
inductive RevalOutcome where
  | transportError
  | resp (status : Int) (headers : List (String × String))

/-- Upstream behaviour for one `(year, lang)` run: plain GETs keyed by
resource path, plus the one conditional GET the policy can issue. -/
structure YearNet where
  fetch : String → FetchOutcome
  reval : RevalOutcome

/-- Network requests issued during a run, in order. -/
inductive NetRequest where
  | get (resource : String)
  | conditionalGet (resource : String)
deriving DecidableEq

/-! ## ElectionScraper (scraper.py:150-412) -/

/-- Mutable state of an `ElectionScraper` instance. `_fetch_dataset`
always constructs it with `data_source=None`, so the data prefix is
empty and prefixed resources equal normalized ones. -/
structure Scraper where
  year : Int
  lang : String
  resource_headers : List (String × List (String × String))
  national : Option (List (String × PyObj))
  party_lookup : List (Int × String)

def Scraper.init (year : Int) (lang : String) : Scraper :=
  ⟨year, lang, [], Option.none, []⟩

/-- Lookup in `_party_lookup` (`dict.get`). -/
def lookupFind (es : List (Int × String)) (k : Int) : Option String :=
  match es with
  | [] => Option.none
  | (k2, v) :: rest => if k2 = k then some v else lookupFind rest k

/-- Assignment into `_party_lookup`. -/
def lookupSet (es : List (Int × String)) (k : Int) (v : String) :
    List (Int × String) :=
  match es with
  | [] => [(k, v)]
  | (k2, v2) :: rest =>
      if k2 = k then (k, v) :: rest else (k2, v2) :: lookupSet rest k v

/-- Contiguous-substring test (`"application/problem+json" in content_type`). -/
def containsSub (pat : List Char) : List Char → Bool
  | [] => pat.isEmpty
  | c :: rest => pat.isPrefixOf (c :: rest) || containsSub pat rest

/-- Reason extraction for non-200 responses (scraper.py:200-212):
with an `application/problem+json` content type and a JSON dict body,
`str(problem.get("message") or problem.get("detail") or
problem.get("title"))`. -/
def problemReason (headers : List (String × String)) (body : HttpBody) :
    Option String :=
  let ct := (headerGetCI headers "Content-Type").getD ""
  if containsSub "application/problem+json".toList ct.toList then
    match body.json with
    | some (.dict es) =>
        some (String.mk (pyStrChars
          (pyOr (pyOr (pyGet es "message") (pyGet es "detail")) (pyGet es "title"))))
    | _ => Option.none
  else Option.none

/-- `ElectionScraper._fetch_json` (scraper.py:191-234). Headers are
recorded before the not-found-marker and JSON checks; failures raise
`ElectionDataUnavailable` or `RuntimeError` as in the source. -/
def _fetch_json (net : YearNet) (s : Scraper) (resource : String) :
    Except PyErr (List (String × PyObj) × Scraper × List NetRequest) :=
  match net.fetch resource with
  | .transportError =>
      .error (.dataUnavailable s.year resource Option.none Option.none)
  | .resp status headers body =>
      if status ≠ 200 then
        .error (.dataUnavailable s.year resource (some status)
          (problemReason headers body))
      else
        let s2 := { s with
          resource_headers := assocSet s.resource_headers resource headers }
        if body.notFoundMarker then
          .error (.dataUnavailable s2.year resource (some status)
            (some "page not found"))
        else
          match body.json with
          | Option.none =>
              .error (.runtimeError "Invalid JSON payload")
          | some (.dict es) => .ok (es, s2, [.get resource])
          | some _ => .error (.runtimeError "Unexpected JSON structure")

/-- `ElectionScraper._get_national_data` (scraper.py:236-239). -/
def _get_national_data (net : YearNet) (s : Scraper) :
    Except PyErr (List (String × PyObj) × Scraper × List NetRequest) :=
  match s.national with
  | some d => .ok (d, s, [])
  | Option.none => do
      let (payload, s2, log) ← _fetch_json net s PRIMARY_RESOURCE
      .ok (payload, { s2 with national := some payload }, log)

def optIntObj : Option Int → PyObj
  | Option.none => .none
  | some n => .int n

def optRatObj : Option ℚ → PyObj
  | Option.none => .none
  | some q => .float q

/-- Local `_get_number` of `fetch_summary` (scraper.py:252-255). -/
def _get_number (values : List PyObj) (index : Nat) :
    Except PyErr (Option Int) :=
  match values[index]? with
  | Option.none => .ok Option.none
  | some v => normalize_number v

/-- Local `_get_float` of `fetch_summary` (scraper.py:257-260). -/
def _get_float (values : List PyObj) (index : Nat) : Option ℚ :=
  match values[index]? with
  | Option.none => Option.none
  | some v => normalize_percentage v

/-- Body of `fetch_summary` after the shape check (scraper.py:262-287):
builds the summary dict, then derives `invalid_votes` and
`invalid_votes_percent` from `envelopes_returned` and `valid_votes`. -/
def summaryOfRow (values : List PyObj) : Except PyErr PyObj := do
  let wards_total ← _get_number values 0
  let wards_processed ← _get_number values 1
  let wards_processed_percent := _get_float values 2
  let voters_in_roll ← _get_number values 3
  let envelopes_issued ← _get_number values 4
  let turnout_percent := _get_float values 5
  let envelopes_returned ← _get_number values 8
  let valid_votes ← _get_number values 9
  let valid_votes_percent := _get_float values 10
  let base : List (String × PyObj) := [
    ("wards_total", optIntObj wards_total),
    ("wards_processed", optIntObj wards_processed),
    ("wards_processed_percent", optRatObj wards_processed_percent),
    ("voters_in_roll", optIntObj voters_in_roll),
    ("envelopes_issued", optIntObj envelopes_issued),
    ("turnout_percent", optRatObj turnout_percent),
    ("envelopes_returned", optIntObj envelopes_returned),
    ("valid_votes", optIntObj valid_votes),
    ("valid_votes_percent", optRatObj valid_votes_percent)]
  match envelopes_returned, valid_votes with
  | some er, some vv =>
      let invalid := er - vv
      .ok (.dict (base ++ [
        ("invalid_votes", .int invalid),
        ("invalid_votes_percent",
          if er ≠ 0 then .float (pyRound2 (intDivRat (100 * invalid) er))
          else .none)]))
  | _, _ =>
      .ok (.dict (base ++ [
        ("invalid_votes", .none), ("invalid_votes_percent", .none)]))

/-- `ElectionScraper.fetch_summary` (scraper.py:245-287). -/
def fetch_summary (net : YearNet) (s : Scraper) :
    Except PyErr (PyObj × Scraper × List NetRequest) := do
  let (data, s2, log) ← _get_national_data net s
  match pyGetD data "prehled" (.list []) with
  | .list values =>
      if values.length < 9 then
        .error (.runtimeError "Unexpected JSON structure: summary data missing")
      else do
        let summary ← summaryOfRow values
        .ok (summary, s2, log)
  | _ => .error (.runtimeError "Unexpected JSON structure: summary data missing")

/-! ## Sorting (Python `list.sort` is stable; `reverse=True` keeps the
original order of equal keys, which insertion after equals reproduces) -/

def insertDescBy {α : Type} (key : α → Int) (x : α) : List α → List α
  | [] => [x]
  | y :: ys => if key x ≤ key y then y :: insertDescBy key x ys else x :: y :: ys

def sortDescBy {α : Type} (key : α → Int) (l : List α) : List α :=
  l.foldl (fun acc x => insertDescBy key x acc) []

def insertAscBy {α : Type} (key : α → Int) (x : α) : List α → List α
  | [] => [x]
  | y :: ys => if key y ≤ key x then y :: insertAscBy key x ys else x :: y :: ys

def sortAscBy {α : Type} (key : α → Int) (l : List α) : List α :=
  l.foldl (fun acc x => insertAscBy key x acc) []

/-- Loop body of `fetch_party_results` (scraper.py:297-314): skip
non-list or short rows and rows with no party number; build the
party-number→name lookup; `or 0` defaults for votes and share. -/
def partyRowsLoop : List PyObj → List (Int × String) → List PartyResult →
    Except PyErr (List (Int × String) × List PartyResult)
  | [], lk, acc => .ok (lk, acc)
  | e :: rest, lk, acc =>
      match e with
      | .list (v0 :: v1 :: v2 :: v3 :: _) => do
          let num? ← normalize_number v0
          match num? with
          | Option.none => partyRowsLoop rest lk acc
          | some pn => do
              let name := String.mk (pyStrChars v1)
              let votes ← normalize_number v2
              let share := normalize_percentage v3
              partyRowsLoop rest (lookupSet lk pn name)
                (acc ++ [⟨pn, name, votes.getD 0, share.getD 0⟩])
      | _ => partyRowsLoop rest lk acc

/-- `ElectionScraper.fetch_party_results` (scraper.py:289-316). -/
def fetch_party_results (net : YearNet) (s : Scraper) :
    Except PyErr (List PartyResult × Scraper × List NetRequest) := do
  let (data, s2, log) ← _get_national_data net s
  match pyGetD data "vysledky" (.list []) with
  | .list entries => do
      let (lk, results) ← partyRowsLoop entries [] []
      .ok (sortDescBy (fun p => p.votes) results,
        { s2 with party_lookup := lk }, log)
  | _ => .ok ([], s2, log)

/-- One row of `fetch_seat_allocation` (scraper.py:325-342): `none`
for a skipped row (non-list, short, or no positive mandate count; the
mandate count is checked before the party number is even parsed). -/
def seatRowParse (lk : List (Int × String)) (e : PyObj) :
    Except PyErr (Option SeatAllocation) :=
  match e with
  | .list (v0 :: v1 :: _ :: _ :: v4 :: _) => do
      let m ← normalize_number v4
      let mandates := m.getD 0
      if mandates ≤ 0 then .ok Option.none
      else do
        let pn? ← normalize_number v0
        let name :=
          match lookupFind lk (pn?.getD (-1)) with
          | some nm => nm
          | Option.none => String.mk (pyStrChars v1)
        .ok (some ⟨name, mandates, Option.none⟩)
  | _ => .ok Option.none

/-- The row loop of `fetch_seat_allocation`. -/
def seatRowsLoop (lk : List (Int × String)) :
    List PyObj → List SeatAllocation → Except PyErr (List SeatAllocation)
  | [], acc => .ok acc
  | e :: rest, acc => do
      let r ← seatRowParse lk e
      match r with
      | some t => seatRowsLoop lk rest (acc ++ [t])
      | Option.none => seatRowsLoop lk rest acc

/-- `ElectionScraper.fetch_seat_allocation` (scraper.py:318-344). -/
def fetch_seat_allocation (net : YearNet) (s : Scraper) :
    Except PyErr (List SeatAllocation × Scraper × List NetRequest) := do
  let (data, s2, log) ← _get_national_data net s
  match pyGetD data "vysledky" (.list []) with
  | .list entries => do
      let seats ← seatRowsLoop s2.party_lookup entries []
      .ok (sortDescBy (fun t => t.mandates) seats, s2, log)
  | _ => .ok ([], s2, log)

/-- Python `int(s)` on a region-id key string (whitespace stripped,
optional sign; the digit-group-underscore corner of `int` is not
modelled as no key contains one). -/
def pyIntOfString (s : String) : Option Int :=
  match pyStripList s.toList with
  | '+' :: rest =>
      if !rest.isEmpty && rest.all Char.isDigit
      then some (digitsToNat rest : Int) else Option.none
  | '-' :: rest =>
      if !rest.isEmpty && rest.all Char.isDigit
      then some (-(digitsToNat rest : Int)) else Option.none
  | l => if !l.isEmpty && l.all Char.isDigit
      then some (digitsToNat l : Int) else Option.none

/-- `kstranaBarva` handling (scraper.py:368-371). -/
def regionColor (v : PyObj) : Option String :=
  match v with
  | .str code => if code ≠ "" then some ("#" ++ code) else Option.none
  | _ => Option.none

/-- Loop body of `fetch_region_leaders` (scraper.py:356-387). Python
would store a non-string `kstranaZkratka` fallback unchanged in the
record; the embedding stringifies that ill-typed corner (never produced
by the upstream payloads the claims range over). -/
def regionRowsLoop (lk : List (Int × String)) (year : Int) :
    List (String × PyObj) → List RegionLeader →
    Except PyErr (List RegionLeader)
  | [], acc => .ok acc
  | (ridStr, raw) :: rest, acc =>
      match raw with
      | .dict rawes =>
          (match pyIntOfString ridStr with
          | Option.none => regionRowsLoop lk year rest acc
          | some region_id => do
              let pn? ← normalize_number (pyGet rawes "kstrana")
              let fallback := pyGetD rawes "kstranaZkratka" (.str "")
              let party_name : PyObj :=
                match lookupFind lk (pn?.getD (-1)) with
                | some nm => .str nm
                | Option.none => fallback
              let leading_party : String :=
                match pyOr party_name (.str "") with
                | .str nm => nm
                | v => String.mk (pyStrChars v)
              let color := regionColor (pyGet rawes "kstranaBarva")
              let region_name := String.mk (pyStrChars (pyGetD rawes "krajNazev" (.str "")))
              let leading_percent := normalize_percentage (pyGet rawes "procHlasu")
              let votes ← normalize_number (pyGet rawes "hlasu")
              let processed_percent := normalize_percentage (pyGet rawes "procZprac")
              let detail_url :=
                if region_id ≠ 0
                then buildAppUrl year ("cs/results/" ++ String.mk (intRepr region_id))
                else buildAppUrl year "cs/results"
              regionRowsLoop lk year rest (acc ++ [⟨region_id, region_name,
                leading_party, leading_percent, votes, processed_percent,
                color, detail_url⟩]))
      | _ => regionRowsLoop lk year rest acc

/-- `ElectionScraper.fetch_region_leaders` (scraper.py:346-389):
re-runs `fetch_party_results` first when the lookup is empty, then
fetches and parses `mapa_vitez.json`. -/
def fetch_region_leaders (net : YearNet) (s : Scraper) :
    Except PyErr (List RegionLeader × Scraper × List NetRequest) := do
  let (s1, log1) ←
    if s.party_lookup.isEmpty then do
      let (_, s1, log1) ← fetch_party_results net s
      pure (s1, log1)
    else pure (s, ([] : List NetRequest))
  let (payload, s2, log2) ← _fetch_json net s1 "mapa_vitez.json"
  match pyGetD payload "kraje" (.dict []) with
  | .dict kraje => do
      let leaders ← regionRowsLoop s2.party_lookup s2.year kraje []
      .ok (sortAscBy (fun r => r.region_id) leaders, s2, log1 ++ log2)
  | _ => .ok ([], s2, log1 ++ log2)

def headersObj (hs : List (String × String)) : PyObj :=
  .dict (hs.map (fun p => (p.1, .str p.2)))

def resourceHeadersObj (rh : List (String × List (String × String))) : PyObj :=
  .dict (rh.map (fun p => (p.1, headersObj p.2)))

/-- `ElectionScraper.fetch_all` (scraper.py:391-412). `data_source` is
always empty for the scrapers the cache layer builds, so the optional
`"data_source"` metadata key never appears. -/
def fetch_all (net : YearNet) (now : ℚ) (s : Scraper) :
    Except PyErr (PyObj × Scraper × List NetRequest) := do
  let (summary, s1, log1) ← fetch_summary net s
  let (parties, s2, log2) ← fetch_party_results net s1
  let (seats, s3, log3) ← fetch_seat_allocation net s2
  let (regions, s4, log4) ← fetch_region_leaders net s3
  let metadata : PyObj := .dict [
    ("year", .int s4.year),
    ("lang", .str s4.lang),
    ("fetched_at", .float now),
    ("source", .str (buildDataUrl s4.year PRIMARY_RESOURCE)),
    ("resource_headers", resourceHeadersObj s4.resource_headers)]
  .ok (.dict [
    ("metadata", metadata),
    ("summary", summary),
    ("parties", .list (parties.map PyObj.party)),
    ("seats", .list (seats.map PyObj.seat)),
    ("regions", .list (regions.map PyObj.region))],
    s4, log1 ++ log2 ++ log3 ++ log4)

/-! ## Serialization (scraper.py:456-475) -/

def optStrObj : Option String → PyObj
  | Option.none => .none
  | some s => .str s

/-- `dataclasses.asdict` on the three record kinds (fields in
declaration order). -/
def partyAsDict (p : PartyResult) : PyObj :=
  .dict [("number", .int p.number), ("name", .str p.name),
         ("votes", .int p.votes), ("vote_share", .float p.vote_share)]

def seatAsDict (t : SeatAllocation) : PyObj :=
  .dict [("party", .str t.party), ("mandates", .int t.mandates),
         ("color", optStrObj t.color)]

def regionAsDict (r : RegionLeader) : PyObj :=
  .dict [("region_id", .int r.region_id), ("region_name", .str r.region_name),
         ("leading_party", .str r.leading_party),
         ("leading_percent", optRatObj r.leading_percent),
         ("votes", optIntObj r.votes),
         ("processed_percent", optRatObj r.processed_percent),
         ("color", optStrObj r.color), ("detail_url", .str r.detail_url)]

mutual

/-- `_convert_serializable` (scraper.py:456-463). -/
def _convert_serializable : PyObj → PyObj
  | .none => .none
  | .bool b => .bool b
  | .int n => .int n
  | .float q => .float q
  | .str s => .str s
  | .list items => .list (convSerList items)
  | .dict es => .dict (convSerEntries es)
  | .party p => partyAsDict p
  | .seat t => seatAsDict t
  | .region r => regionAsDict r

def convSerList : List PyObj → List PyObj
  | [] => []
  | x :: xs => _convert_serializable x :: convSerList xs

def convSerEntries : List (String × PyObj) → List (String × PyObj)
  | [] => []
  | (k, v) :: es => (k, _convert_serializable v) :: convSerEntries es

end

/-- `_serialize_dataset` (scraper.py:466-467). -/
def _serialize_dataset (dataset : PyObj) : PyObj := _convert_serializable dataset

/-- `PartyResult(**item)` (scraper.py:472): `TypeError` unless `item`
is a mapping whose keys are exactly the field names.  Python would
accept ill-typed field values without checking; the embedding requires
the declared field types, the only case the pipeline ever produces. -/
def partyFromDict : PyObj → Except PyErr PartyResult
  | .dict es =>
      if es.length = 4 then
        match assocFind es "number", assocFind es "name",
              assocFind es "votes", assocFind es "vote_share" with
        | some (.int n), some (.str nm), some (.int v), some (.float sh) =>
            .ok ⟨n, nm, v, sh⟩
        | _, _, _, _ => .error .typeError
      else .error .typeError
  | _ => .error .typeError

/-- `SeatAllocation(**item)` (scraper.py:473). -/
def seatFromDict : PyObj → Except PyErr SeatAllocation
  | .dict es =>
      if es.length = 3 then
        match assocFind es "party", assocFind es "mandates",
              assocFind es "color" with
        | some (.str pn), some (.int m), some c =>
            match c with
            | .none => .ok ⟨pn, m, Option.none⟩
            | .str cs => .ok ⟨pn, m, some cs⟩
            | _ => .error .typeError
        | _, _, _ => .error .typeError
      else .error .typeError
  | _ => .error .typeError

def optRatFromObj : PyObj → Except PyErr (Option ℚ)
  | .none => .ok Option.none
  | .float q => .ok (some q)
  | _ => .error .typeError

def optIntFromObj : PyObj → Except PyErr (Option Int)
  | .none => .ok Option.none
  | .int n => .ok (some n)
  | _ => .error .typeError

def optStrFromObj : PyObj → Except PyErr (Option String)
  | .none => .ok Option.none
  | .str s => .ok (some s)
  | _ => .error .typeError

/-- `RegionLeader(**item)` (scraper.py:474). -/
def regionFromDict : PyObj → Except PyErr RegionLeader
  | .dict es =>
      if es.length = 8 then
        match assocFind es "region_id", assocFind es "region_name",
              assocFind es "leading_party", assocFind es "detail_url" with
        | some (.int rid), some (.str rn), some (.str lp), some (.str du) =>
            (match assocFind es "leading_percent", assocFind es "votes",
                  assocFind es "processed_percent", assocFind es "color" with
            | some lpv, some vv, some ppv, some cv => do
                let lp2 ← optRatFromObj lpv
                let v2 ← optIntFromObj vv
                let pp2 ← optRatFromObj ppv
                let c2 ← optStrFromObj cv
                .ok ⟨rid, rn, lp, lp2, v2, pp2, c2, du⟩
            | _, _, _, _ => .error .typeError)
        | _, _, _, _ => .error .typeError
      else .error .typeError
  | _ => .error .typeError

/-- `_deserialize_dataset` (scraper.py:470-475): deep copy, then
rebuild the three typed-record lists in order (`parties`, `seats`,
`regions`); `data.get` on a non-dict raises `AttributeError`, and a
present non-list value feeds non-dict items to the record constructors,
which raise `TypeError`. -/
def _deserialize_dataset (payload : PyObj) : Except PyErr PyObj :=
  match payload with
  | .dict es => do
      let parties ←
        match pyGetD es "parties" (.list []) with
        | .list items => items.mapM partyFromDict
        | _ => .error .typeError
      let es1 := assocSet es "parties" (.list (parties.map PyObj.party))
      let seats ←
        match pyGetD es1 "seats" (.list []) with
        | .list items => items.mapM seatFromDict
        | _ => .error .typeError
      let es2 := assocSet es1 "seats" (.list (seats.map PyObj.seat))
      let regions ←
        match pyGetD es2 "regions" (.list []) with
        | .list items => items.mapM regionFromDict
        | _ => .error .typeError
      .ok (.dict (assocSet es2 "regions" (.list (regions.map PyObj.region))))
  | _ => .error .attributeError

/-! ## Cache store (scraper.py:448-531) -/

/-- What the cache file for a `(year, lang)` key holds on disk, as the
code's `json.load` sees it: absent, text that raises `JSONDecodeError`,
or a parsed JSON value. -/
inductive DiskState where
  | absent
  | malformedJSON
  | parsed (payload : PyObj)

/-- `_cache_path(year, lang)` relative to the package directory. -/
def cachePathStr (year : Int) (lang : String) : String :=
  "DATA/ps" ++ String.mk (intRepr year) ++ "_" ++ strLower lang ++ ".json"

/-- The dict `_load_cache` returns (scraper.py:490-495); `path` is
carried but never consumed by the policy. -/
structure CacheEntry where
  path : String
  etag : PyObj
  checked_at : PyObj
  data : PyObj

/-- `_load_cache` (scraper.py:478-495): absent file or malformed JSON
give `None`; a parsed dict with the wrong `version` gives `None`; a
parsed non-dict raises `AttributeError` at `payload.get`; bad record
data raises out of `_deserialize_dataset`. -/
def _load_cache (year : Int) (lang : String) (disk : DiskState) :
    Except PyErr (Option CacheEntry) :=
  match disk with
  | .absent => .ok Option.none
  | .malformedJSON => .ok Option.none
  | .parsed payload =>
      match payload with
      | .dict es =>
          if !pyEqNum (pyGet es "version") CACHE_VERSION then .ok Option.none
          else do
            let dataset ← _deserialize_dataset (pyGetD es "data" (.dict []))
            .ok (some ⟨cachePathStr year lang, pyGet es "etag",
              pyGetD es "checked_at" (.float 0), dataset⟩)
      | _ => .error .attributeError

/-- `snapshot.get("metadata", {}).pop("cache", None)` (scraper.py:507):
a present non-dict metadata value has no usable `pop` and raises (the
exact exception class depends on the value; one error constructor
stands for them all). -/
def stripCacheMeta : PyObj → Except PyErr PyObj
  | .dict es =>
      (match assocFind es "metadata" with
      | some (.dict ms) =>
          .ok (.dict (assocSet es "metadata" (.dict (assocErase ms "cache"))))
      | some _ => .error .typeError
      | Option.none => .ok (.dict es))
  | v => .ok v

/-- `_store_cache` (scraper.py:498-515): strip `metadata.cache` from a
deep copy, then write the versioned payload. Returns the JSON payload
written (stored datasets are dataclass-free after serialization, so
`json.dump`/`json.load` round it through disk unchanged).  The
`checked_at or time.time()` default makes a passed `0.0` fall back to
the current time. -/
def _store_cache (year : Int) (lang : String) (dataset : PyObj)
    (etag : PyObj) (checked_at : Option ℚ) (now : ℚ) :
    Except PyErr PyObj := do
  let snapshot ← stripCacheMeta dataset
  let ca : ℚ := match checked_at with
    | some t => if t ≠ 0 then t else now
    | Option.none => now
  .ok (.dict [("version", .int CACHE_VERSION), ("etag", etag),
    ("checked_at", .float ca), ("data", _serialize_dataset snapshot)])

/-! ## Revalidation policy (scraper.py:518-663) -/

/-- `_refresh_interval` (scraper.py:518-522): `FINAL_REFRESH_INTERVAL`
when the cached summary's `wards_processed_percent` is a number `≥ 100`
(`isinstance(…, (int, float))` admits bools, whose values 0 and 1 never
reach 100), else `PARTIAL_REFRESH_INTERVAL`; `summary.get` on a
non-dict raises `AttributeError`. -/
def _refresh_interval (summary : PyObj) : Except PyErr Int :=
  match summary with
  | .dict es =>
      .ok (match pyToNum (pyGet es "wards_processed_percent") with
        | some q => if (100 : ℚ) ≤ q then FINAL_REFRESH_INTERVAL
            else PARTIAL_REFRESH_INTERVAL
        | Option.none => PARTIAL_REFRESH_INTERVAL)
  | _ => .error .attributeError

/-- The summary `_should_revalidate` reads from a cache entry
(scraper.py:526-528). -/
def entrySummary (e : CacheEntry) : PyObj :=
  match e.data with
  | .dict des => pyGetD des "summary" (.dict [])
  | _ => .dict []

/-- `_should_revalidate` (scraper.py:525-531): stale iff
`now - checked_at ≥ interval`; a non-numeric `checked_at` raises
`TypeError` at the subtraction. -/
def _should_revalidate (now : ℚ) (e : CacheEntry) : Except PyErr Bool := do
  let interval ← _refresh_interval (entrySummary e)
  match pyToNum e.checked_at with
  | some t => .ok (decide (ratOfInt interval ≤ ratSub now t))
  | Option.none => .error .typeError

/-- `_primary_resource` (scraper.py:534-535). Note this value differs
from `PRIMARY_RESOURCE`, the resource the scraper actually fetches. -/
def _primary_resource (lang : String) : String := "ps2?xjazyk=" ++ lang

def hdrObj : Option String → PyObj
  | Option.none => .none
  | some v => .str v

/-- `_extract_primary_etag` (scraper.py:538-548): reads the plain
(case-sensitive) header dict stored in the dataset metadata under the
`_primary_resource lang` key.  Only ever called on `fetch_all` output,
which is a dict. -/
def _extract_primary_etag (dataset : PyObj) (lang : String) : PyObj :=
  match dataset with
  | .dict es =>
      (match pyGetD es "metadata" (.dict []) with
      | .dict ms =>
          (match pyGetD ms "resource_headers" (.dict []) with
          | .dict hm =>
              (match pyGetD hm (_primary_resource lang) (.dict []) with
              | .dict rh => pyOr (pyGet rh "ETag") (pyGet rh "etag")
              | _ => .none)
          | _ => .none)
      | _ => .none)
  | _ => .none

/-- `_annotate_cache_metadata` (scraper.py:551-569). The `cache_entry`
argument carries the `(etag, checked_at)` pair of the (always
non-empty, hence truthy) entry dict at each call site. -/
def _annotate_cache_metadata (dataset : PyObj) (year : Int) (lang : String)
    (cache_hit revalidated : Bool) (cache_entry : Option (PyObj × PyObj)) :
    Except PyErr PyObj :=
  match dataset with
  | .dict es =>
      (match pyGetD es "metadata" (.dict []) with
      | .dict ms =>
          let info : List (String × PyObj) :=
            [("hit", .bool cache_hit), ("revalidated", .bool revalidated),
             ("path", .str (cachePathStr year lang))] ++
            (match cache_entry with
             | some (etg, ca) => [("checked_at", ca), ("etag", etg)]
             | Option.none => [])
          .ok (.dict (assocSet es "metadata"
            (.dict (assocSet ms "cache" (.dict info)))))
      | _ => .error .typeError)
  | _ => .error .attributeError

/-- `_revalidate_primary_resource` (scraper.py:632-650): conditional
GET; 304 keeps the old etag, 200 hands back the response (of which the
code only ever uses the headers) and its `ETag`/`etag` header, other
statuses and transport failures raise `ElectionDataUnavailable`. -/
def _revalidate_primary_resource (net : YearNet) (year : Int)
    (lang : String) (etag : PyObj) :
    Except PyErr (Bool × Option (List (String × String)) × PyObj) :=
  match net.reval with
  | .transportError =>
      .error (.dataUnavailable year (_primary_resource lang)
        Option.none Option.none)
  | .resp status headers =>
      if status = 304 then .ok (false, Option.none, etag)
      else if status = 200 then
        .ok (true, some headers,
          pyOr (hdrObj (headerGetCI headers "ETag"))
               (hdrObj (headerGetCI headers "etag")))
      else .error (.dataUnavailable year (_primary_resource lang)
        (some status) Option.none)

/-- `_fetch_dataset` (scraper.py:653-663): fresh scraper; a prefetched
response contributes only its headers, stored under the
`_primary_resource lang` key, before `fetch_all` runs (and fetches the
primary JSON resource itself over the network). -/
def _fetch_dataset (net : YearNet) (year : Int) (lang : String) (now : ℚ)
    (prefetched : Option (List (String × String))) :
    Except PyErr (PyObj × List NetRequest) := do
  let s0 := Scraper.init year lang
  let s1 := match prefetched with
    | some h =>
        { s0 with resource_headers := (assocSet s0.resource_headers (_primary_resource lang) h) }
    | Option.none => s0
  let (ds, _, log) ← fetch_all net now s1
  .ok (ds, log)

/-- Result of one `_get_dataset_with_cache` run: the returned dataset,
the resulting on-disk cache state, and the network requests issued. -/
structure PolicyOut where
  dataset : PyObj
  disk : DiskState
  log : List NetRequest

/-- The shared no-usable-cache tail of `_get_dataset_with_cache`
(scraper.py:617-629): full fetch, store, annotate as a miss. -/
def policyFullFetch (net : YearNet) (year : Int) (lang : String)
    (now : ℚ) : Except PyErr PolicyOut := do
  let (dataset, flog) ← _fetch_dataset net year lang now Option.none
  let resulting_etag := _extract_primary_etag dataset lang
  let payload ← _store_cache year lang dataset resulting_etag (some now) now
  let ds ← _annotate_cache_metadata dataset year lang false false
    (some (resulting_etag, .float now))
  .ok ⟨ds, .parsed payload, flog⟩

/-- `_get_dataset_with_cache` (scraper.py:572-629), with the wall clock
frozen at `now` for the duration of the call. -/
def _get_dataset_with_cache (net : YearNet) (year : Int) (lang : String)
    (now : ℚ) (disk : DiskState) : Except PyErr PolicyOut := do
  let entry? ← _load_cache year lang disk
  match entry? with
  | some entry => do
      let stale ← _should_revalidate now entry
      if !stale then do
        let ds ← _annotate_cache_metadata entry.data year lang true false
          (some (entry.etag, entry.checked_at))
        .ok ⟨ds, disk, []⟩
      else if pyTruthy entry.etag then do
        let r ← _revalidate_primary_resource net year lang entry.etag
        match r with
        | (false, _, _) => do
            let payload ← _store_cache year lang entry.data entry.etag
              (some now) now
            let ds ← _annotate_cache_metadata entry.data year lang true true
              (some (entry.etag, .float now))
            .ok ⟨ds, .parsed payload, [.conditionalGet (_primary_resource lang)]⟩
        | (true, prefetched, new_etag) => do
            let (dataset, flog) ← _fetch_dataset net year lang now prefetched
            let resulting_etag := pyOr new_etag (_extract_primary_etag dataset lang)
            let payload ← _store_cache year lang dataset resulting_etag
              (some now) now
            let ds ← _annotate_cache_metadata dataset year lang false true
              (some (resulting_etag, .float now))
            .ok ⟨ds, .parsed payload,
              .conditionalGet (_primary_resource lang) :: flog⟩
      else policyFullFetch net year lang now
  | Option.none => policyFullFetch net year lang now

/-! ## Fallback orchestrator (scraper.py:415-440) -/

def strUpper (s : String) : String := String.mk (s.toList.map Char.toUpper)

/-- The three metadata stamps `gather_election_data` applies
(scraper.py:430-439), via `setdefault("metadata", {})`. -/
def setFallbackMeta (dataset : PyObj) (effective requested : Int)
    (fb : Bool) : Except PyErr PyObj :=
  match dataset with
  | .dict es =>
      (match pyGetD es "metadata" (.dict []) with
      | .dict ms =>
          .ok (.dict (assocSet es "metadata" (.dict
            (assocSet (assocSet (assocSet ms "effective_year" (.int effective))
              "requested_year" (.int requested)) "fallback_used" (.bool fb)))))
      | _ => .error .typeError)
  | _ => .error .attributeError

/-- `gather_election_data` (scraper.py:415-440): uppercase the lang,
run the policy for `year`; on `ElectionDataUnavailable` retry once for
a distinct configured fallback year; other exceptions and fallback
failures propagate. -/
def gather_election_data (net : Int → YearNet) (diskOf : Int → DiskState)
    (year : Int) (fallback_year : Option Int) (lang : String) (now : ℚ) :
    Except PyErr PyObj :=
  let lang2 := strUpper lang
  match _get_dataset_with_cache (net year) year lang2 now (diskOf year) with
  | .ok out => setFallbackMeta out.dataset year year false
  | .error (.dataUnavailable y r st rs) =>
      (match fallback_year with
      | Option.none => .error (.dataUnavailable y r st rs)
      | some fy =>
          if fy = year then .error (.dataUnavailable y r st rs)
          else
            match _get_dataset_with_cache (net fy) fy lang2 now (diskOf fy) with
            | .ok out2 => setFallbackMeta out2.dataset fy year true
            | .error e2 => .error e2)
  | .error e => .error e

/-! ## Shared observation helpers for the theorems -/

/-- The network requests of a policy run (empty on failure). -/
def policyLog (r : Except PyErr PolicyOut) : List NetRequest :=
  match r with
  | .ok o => o.log
  | .error _ => []

/-- The `etag` field of the cache payload a policy run wrote. -/
def policyDiskEtag (r : Except PyErr PolicyOut) : Option PyObj :=
  match r with
  | .ok o =>
      (match o.disk with
      | .parsed (.dict es) => assocFind es "etag"
      | _ => Option.none)
  | .error _ => Option.none

/-- A named field of a `fetch_summary` result. -/
def summaryField (r : Except PyErr (PyObj × Scraper × List NetRequest))
    (k : String) : Option PyObj :=
  match r with
  | .ok (.dict es, _, _) => assocFind es k
  | _ => Option.none

/-- A named field of the metadata dict of a dataset. -/
def metaField (dataset : PyObj) (k : String) : Option PyObj :=
  match dataset with
  | .dict es =>
      (match assocFind es "metadata" with
      | some (.dict ms) => assocFind ms k
      | _ => Option.none)
  | _ => Option.none

/-- A named field of the `metadata.cache` annotation of a dataset. -/
def cacheField (dataset : PyObj) (k : String) : Option PyObj :=
  match metaField dataset "cache" with
  | some (.dict cs) => assocFind cs k
  | _ => Option.none

/-- The dataset constructor the module's `fetch_all` shape uses; the
round-trip claims quantify over datasets of this shape. -/
def mkDatasetObj (md sm : PyObj) (ps : List PartyResult)
    (ss : List SeatAllocation) (rs : List RegionLeader) : PyObj :=
  .dict [("metadata", md), ("summary", sm),
    ("parties", .list (ps.map PyObj.party)),
    ("seats", .list (ss.map PyObj.seat)),
    ("regions", .list (rs.map PyObj.region))]

mutual

/-- `true` when a value contains no dataclass instance (the shape of
`metadata` and `summary` subtrees in every dataset the module builds). -/
def dataclassFree : PyObj → Bool
  | .none => true
  | .bool _ => true
  | .int _ => true
  | .float _ => true
  | .str _ => true
  | .list items => dataclassFreeList items
  | .dict es => dataclassFreeEntries es
  | .party _ => false
  | .seat _ => false
  | .region _ => false

def dataclassFreeList : List PyObj → Bool
  | [] => true
  | x :: xs => dataclassFree x && dataclassFreeList xs

def dataclassFreeEntries : List (String × PyObj) → Bool
  | [] => true
  | (_, v) :: es => dataclassFree v && dataclassFreeEntries es

end

/-! ## Theorems -/

theorem ratOfInt_eq (n : Int) : ratOfInt n = (n : ℚ) := Rat.mkRat_one n

theorem ratAdd_eq (a b : ℚ) : ratAdd a b = a + b := by
  have ha : (a.den : ℤ) ≠ 0 := Int.natCast_ne_zero.mpr a.den_nz
  have hb : (b.den : ℤ) ≠ 0 := Int.natCast_ne_zero.mpr b.den_nz
  rw [ratAdd, Rat.mkRat_eq_divInt, Nat.cast_mul]
  conv_rhs => rw [← Rat.num_divInt_den a, ← Rat.num_divInt_den b]
  rw [Rat.divInt_add_divInt _ _ ha hb]

theorem ratSub_eq (a b : ℚ) : ratSub a b = a - b := by
  have ha : (a.den : ℤ) ≠ 0 := Int.natCast_ne_zero.mpr a.den_nz
  have hb : (b.den : ℤ) ≠ 0 := Int.natCast_ne_zero.mpr b.den_nz
  rw [ratSub, Rat.mkRat_eq_divInt, Nat.cast_mul]
  conv_rhs => rw [← Rat.num_divInt_den a, ← Rat.num_divInt_den b]
  rw [Rat.divInt_sub_divInt _ _ ha hb]

theorem ratMul_eq (a b : ℚ) : ratMul a b = a * b := by
  rw [ratMul, Rat.mkRat_eq_divInt, Nat.cast_mul]
  conv_rhs => rw [← Rat.num_divInt_den a, ← Rat.num_divInt_den b]
  rw [Rat.divInt_mul_divInt']

theorem intDivRat_eq (a b : Int) : intDivRat a b = (a : ℚ) / (b : ℚ) := by
  rw [intDivRat]
  rcases lt_or_le b 0 with h | h
  · rw [if_pos h, Rat.mkRat_eq_divInt,
      Int.ofNat_natAbs_of_nonpos (le_of_lt h), Rat.divInt_neg, neg_neg,
      Rat.divInt_eq_div]
  · rw [if_neg (not_lt.mpr h), Rat.mkRat_eq_divInt,
      Int.natAbs_of_nonneg h, Rat.divInt_eq_div]

theorem ratAbs_eq (q : ℚ) : ratAbs q = |q| := by
  rw [ratAbs, Rat.mkRat_eq_divInt]
  rcases le_or_lt 0 q.num with h | h
  · rw [Int.natAbs_of_nonneg h, Rat.num_divInt_den]
    exact (abs_of_nonneg (Rat.num_nonneg.mp h)).symm
  · rw [Int.ofNat_natAbs_of_nonpos (le_of_lt h), ← Rat.neg_divInt,
      Rat.num_divInt_den]
    exact (abs_of_neg (Rat.num_neg.mp h)).symm


deriving instance DecidableEq for Except

/-! ### Decimal-digit infrastructure -/

theorem digitsToNat_append (l : List Char) (c : Char) :
    digitsToNat (l ++ [c]) = 10 * digitsToNat l + (c.toNat - 48) := by
  simp [digitsToNat, List.foldl_append]

theorem isDigit_ofNat_digit {k : Nat} (hk : k < 10) :
    (Char.ofNat (48 + k)).isDigit = true := by
  interval_cases k <;> decide

theorem toNat_ofNat_digit {k : Nat} (hk : k < 10) :
    (Char.ofNat (48 + k)).toNat = 48 + k := by
  interval_cases k <;> decide

theorem not_ws_ofNat_digit {k : Nat} (hk : k < 10) :
    (Char.ofNat (48 + k)).isWhitespace = false := by
  interval_cases k <;> decide

theorem natDigitsAux_all_digits :
    ∀ fuel n, (natDigitsAux fuel n).all Char.isDigit = true
  | 0, n => by
      simp [natDigitsAux, isDigit_ofNat_digit (Nat.mod_lt n (by omega))]
  | fuel + 1, n => by
      by_cases h : n < 10
      · simp [natDigitsAux, h, isDigit_ofNat_digit h]
      · simp [natDigitsAux, h, natDigitsAux_all_digits fuel (n / 10),
          isDigit_ofNat_digit (Nat.mod_lt n (by omega))]

theorem natDigitsAux_ne_nil : ∀ fuel n, natDigitsAux fuel n ≠ []
  | 0, _ => by simp [natDigitsAux]
  | fuel + 1, n => by
      by_cases h : n < 10 <;> simp [natDigitsAux, h]

theorem digitsToNat_natDigitsAux :
    ∀ fuel n, n ≤ fuel → digitsToNat (natDigitsAux fuel n) = n
  | 0, n, h => by
      interval_cases n
      simp [natDigitsAux, digitsToNat]
  | fuel + 1, n, h => by
      by_cases h10 : n < 10
      · simp [natDigitsAux, h10, digitsToNat, toNat_ofNat_digit h10]
      · have hdiv : n / 10 ≤ fuel := by
          have := Nat.div_lt_self (by omega : 0 < n) (by omega : 1 < 10)
          omega
        rw [natDigitsAux, if_neg h10, digitsToNat_append,
          digitsToNat_natDigitsAux fuel (n / 10) hdiv,
          toNat_ofNat_digit (Nat.mod_lt n (by omega))]
        omega

theorem digitsToNat_natDigitsRepr (n : Nat) :
    digitsToNat (natDigitsRepr n) = n :=
  digitsToNat_natDigitsAux n n le_rfl

theorem natDigitsRepr_all_digits (n : Nat) :
    (natDigitsRepr n).all Char.isDigit = true :=
  natDigitsAux_all_digits n n

theorem natDigitsRepr_ne_nil (n : Nat) : natDigitsRepr n ≠ [] :=
  natDigitsAux_ne_nil n n

theorem parsePyInt_digits (l : List Char) (h1 : l ≠ [])
    (h2 : l.all Char.isDigit = true) :
    parsePyInt l = some (digitsToNat l : Int) := by
  cases l with
  | nil => cases h1 rfl
  | cons c cs =>
      have hc : ¬ (c = '-') := by
        intro h
        subst h
        simp [List.all_cons] at h2
  -- a minus sign is not a digit
      simp [parsePyInt, hc, h2]

theorem natDigitsRepr_not_isEmpty (n : Nat) :
    (natDigitsRepr n).isEmpty = false := by
  cases h : natDigitsRepr n with
  | nil => exact absurd h (natDigitsRepr_ne_nil n)
  | cons c cs => rfl

theorem parsePyInt_intRepr (n : Int) : parsePyInt (intRepr n) = some n := by
  rcases lt_or_le n 0 with h | h
  · rw [intRepr, if_pos h]
    simp only [parsePyInt, if_pos rfl, natDigitsRepr_not_isEmpty,
      natDigitsRepr_all_digits, Bool.not_false, Bool.and_self, if_true]
    rw [digitsToNat_natDigitsRepr]
    congr 1
    omega
  · rw [intRepr, if_neg (not_lt.mpr h),
      parsePyInt_digits _ (natDigitsRepr_ne_nil _) (natDigitsRepr_all_digits _),
      digitsToNat_natDigitsRepr]
    congr 1
    omega

theorem dropWhile_eq_self_of_not {p : Char → Bool} :
    ∀ l : List Char, (∀ c ∈ l, p c = false) → l.dropWhile p = l
  | [], _ => rfl
  | c :: cs, h => by
      simp [List.dropWhile, h c (List.mem_cons_self c cs)]

theorem pyStripList_eq_self (l : List Char)
    (h : ∀ c ∈ l, c.isWhitespace = false) : pyStripList l = l := by
  rw [pyStripList, dropWhile_eq_self_of_not l h,
    dropWhile_eq_self_of_not l.reverse
      (fun c hc => h c (List.mem_reverse.mp hc)),
    List.reverse_reverse]

theorem isDigit_not_ws {c : Char} (h : c.isDigit = true) :
    c.isWhitespace = false := by
  by_contra hw
  rw [Bool.not_eq_false] at hw
  simp only [Char.isWhitespace, Bool.or_eq_true, decide_eq_true_eq] at hw
  rcases hw with ((h1 | h1) | h1) | h1 <;> (subst h1; simp [Char.isDigit] at h)

theorem not_ws_of_digits (l : List Char) (hd : l.all Char.isDigit = true) :
    ∀ c ∈ l, c.isWhitespace = false := fun c hc =>
  isDigit_not_ws (List.all_eq_true.mp hd c hc)

theorem intRepr_all_numChar (n : Int) :
    ∀ c ∈ intRepr n, isNumChar c = true := by
  intro c hc
  rw [intRepr] at hc
  have hdig : ∀ d ∈ natDigitsRepr n.natAbs, isNumChar d = true := by
    intro d hd
    have := List.all_eq_true.mp (natDigitsRepr_all_digits n.natAbs) d hd
    simp [isNumChar, this]
  split at hc
  · rcases List.mem_cons.mp hc with h | h
    · subst h
      rfl
    · exact hdig c h
  · exact hdig c hc

theorem intRepr_not_ws (n : Int) : ∀ c ∈ intRepr n, c.isWhitespace = false := by
  intro c hc
  rw [intRepr] at hc
  have hdig := not_ws_of_digits _ (natDigitsRepr_all_digits n.natAbs)
  split at hc
  · rcases List.mem_cons.mp hc with h | h
    · subst h
      rfl
    · exact hdig c h
  · exact hdig c hc

theorem ratOfInt_den (n : Int) : (ratOfInt n).den = 1 := by
  rw [ratOfInt_eq]
  exact Rat.den_intCast n

theorem ratOfInt_num (n : Int) : (ratOfInt n).num = n := by
  rw [ratOfInt_eq]
  exact Rat.num_intCast n

theorem ratOfInt_neg_iff (n : Int) : ratOfInt n < 0 ↔ n < 0 := by
  rw [ratOfInt_eq]
  exact_mod_cast Int.cast_lt_zero

/-- `str(float(n))` for an integral float is `str(n) + ".0"`. -/
theorem pyFloatRepr_ofInt (n : Int) :
    pyFloatRepr (ratOfInt n) = intRepr n ++ ['.', '0'] := by
  have habs : ratAbs (ratOfInt n) = ratOfInt (n.natAbs) := by
    rw [ratAbs, ratOfInt_den, ratOfInt_num, ratOfInt]
  by_cases h : n < 0 <;>
    (simp [pyFloatRepr, habs, ratOfInt_den, ratOfInt_num, ratOfInt_neg_iff, h,
      intRepr] <;> rw [Int.abs_eq_natAbs, Int.toNat_natCast])

theorem intRepr_ne_nil (n : Int) : intRepr n ≠ [] := by
  rw [intRepr]
  split
  · simp
  · exact natDigitsRepr_ne_nil _

theorem intRepr_ne_dash (n : Int) : intRepr n ≠ ['-'] := by
  rw [intRepr]
  split
  · simp [natDigitsRepr_ne_nil]
  · intro h
    have := natDigitsRepr_all_digits n.natAbs
    rw [h] at this
    simp at this

theorem stripNonNumber_intRepr (n : Int) :
    stripNonNumber (intRepr n) = intRepr n :=
  List.filter_eq_self.mpr (intRepr_all_numChar n)

theorem parsePyInt_intRepr_zero (n : Int) :
    parsePyInt (intRepr n ++ ['0']) = some (10 * n) := by
  have hall : ((natDigitsRepr n.natAbs ++ ['0']).all Char.isDigit) = true := by
    simp [List.all_append, natDigitsRepr_all_digits]
  have hz : ('0'.toNat - 48) = 0 := by decide
  rcases lt_or_le n 0 with h | h
  · rw [intRepr, if_pos h, List.cons_append, parsePyInt, if_pos rfl]
    have hcond : (!(natDigitsRepr n.natAbs ++ ['0']).isEmpty &&
        (natDigitsRepr n.natAbs ++ ['0']).all Char.isDigit) = true := by
      simp [hall, natDigitsRepr_ne_nil]
    rw [hcond, if_pos rfl, digitsToNat_append, digitsToNat_natDigitsRepr, hz]
    congr 1
    omega
  · rw [intRepr, if_neg (not_lt.mpr h),
      parsePyInt_digits _ (by simp) hall,
      digitsToNat_append, digitsToNat_natDigitsRepr, hz]
    congr 1
    omega

theorem normalizeNumText_intRepr_dot_zero (n : Int) :
    normalizeNumText (intRepr n ++ ['.', '0']) = .ok (some (10 * n)) := by
  have hws : ∀ c ∈ intRepr n ++ ['.', '0'], c.isWhitespace = false := by
    intro c hc
    rcases List.mem_append.mp hc with h | h
    · exact intRepr_not_ws n c h
    · simp only [List.mem_cons, List.not_mem_nil, or_false] at h
      rcases h with rfl | rfl <;> rfl
  have hnum : stripNonNumber (intRepr n ++ ['.', '0']) = intRepr n ++ ['0'] := by
    rw [stripNonNumber, List.filter_append,
      List.filter_eq_self.mpr (intRepr_all_numChar n)]
    rfl
  rw [normalizeNumText, pyStripList_eq_self _ hws]
  rw [if_neg, hnum, if_neg, parsePyInt_intRepr_zero]
  · intro hempty
    have h1 := intRepr_ne_nil n
    rcases hl : intRepr n with _ | ⟨c, cs⟩
    · exact h1 hl
    · rw [hl] at hempty
      simp at hempty
  · rintro (hempty | hdash)
    · simp [intRepr_ne_nil n] at hempty
    · have h3 : (intRepr n ++ ['.', '0']).length ≥ 2 := by
        simp
      rw [hdash] at h3
      simp at h3

theorem normalizeNumText_intRepr (n : Int) :
    normalizeNumText (intRepr n) = .ok (some n) := by
  rw [normalizeNumText, pyStripList_eq_self _ (intRepr_not_ws n),
    if_neg, stripNonNumber_intRepr, if_neg (intRepr_ne_nil n),
    parsePyInt_intRepr]
  rintro (hempty | hdash)
  · exact intRepr_ne_nil n hempty
  · exact intRepr_ne_dash n hdash

theorem normalize_number_intFloat (n : Int) :
    normalize_number (.float (ratOfInt n)) = .ok (some (10 * n)) := by
  have hden : ¬ ((ratOfInt n).den ≠ 1) := by simp [ratOfInt_den]
  rw [show normalize_number (.float (ratOfInt n)) =
      (if (ratOfInt n).den ≠ 1 then Except.ok (some (pyRound (ratOfInt n)))
       else normalizeNumText (pyFloatRepr (ratOfInt n))) from rfl,
    if_neg hden, pyFloatRepr_ofInt, normalizeNumText_intRepr_dot_zero]

/-- C8, counterexample: `normalize_number` does not pass integral
floats through (`2.0` is stringified to `"2.0"` and stripped to `20`),
and it is not total on strings (`"1-2"` strips to `"1-2"`, on which
`int()` raises `ValueError`). -/
theorem c8_counterexample :
    normalize_number (.float (mkRat 2 1)) = .ok (some 20) ∧
    normalize_number (.float (mkRat 2 1)) ≠ .ok (some 2) ∧
    normalize_number (.str "1-2") = .error .valueError := by
  refine ⟨rfl, ?_, rfl⟩
  rw [show normalize_number (.float (mkRat 2 1)) = .ok (some 20) from rfl]
  decide

/-- C8, amended: `normalize_number` returns `None` for `None`, empty
and `"-"` inputs; ints pass through; non-integral floats round half to
even; integral floats are stringified and stripped, so `float(n)` maps
to `10 * n` rather than passing through; a string strips to digits and
`-` and parses, `ValueError` being possible there (so the function is
not total); it is the identity on clean integer strings, and any
decorated string that strips to the clean form of `n` (and is not
empty or `"-"` after whitespace stripping) yields `n`. -/
theorem c8_normalize_number_amended :
    (normalize_number .none = .ok Option.none) ∧
    (∀ n : Int, normalize_number (.int n) = .ok (some n)) ∧
    (∀ q : ℚ, q.den ≠ 1 → normalize_number (.float q) = .ok (some (pyRound q))) ∧
    (∀ n : Int, normalize_number (.float (ratOfInt n)) = .ok (some (10 * n))) ∧
    (normalize_number (.str "") = .ok Option.none) ∧
    (normalize_number (.str "-") = .ok Option.none) ∧
    (∀ n : Int, normalize_number (.str (String.mk (intRepr n))) = .ok (some n)) ∧
    (∀ s : List Char, pyStripList s = s → s ≠ [] → s ≠ ['-'] →
      ∀ n : Int, stripNonNumber s = intRepr n →
      normalize_number (.str (String.mk s)) = .ok (some n)) := by
  refine ⟨rfl, fun n => rfl, fun q hq => ?_, normalize_number_intFloat,
    rfl, rfl, fun n => ?_, fun s hstrip hne hdash n hnum => ?_⟩
  · rw [show normalize_number (.float q) =
        (if q.den ≠ 1 then Except.ok (some (pyRound q))
         else normalizeNumText (pyFloatRepr q)) from rfl, if_pos hq]
  · rw [show normalize_number (.str (String.mk (intRepr n))) =
        normalizeNumText (pyStrChars (.str (String.mk (intRepr n)))) from rfl]
    rw [show pyStrChars (.str (String.mk (intRepr n))) = intRepr n from rfl]
    exact normalizeNumText_intRepr n
  · rw [show normalize_number (.str (String.mk s)) =
        normalizeNumText s from rfl,
      normalizeNumText, hstrip, if_neg (by simp [hne, hdash]), hnum,
      if_neg (intRepr_ne_nil n), parsePyInt_intRepr]

/-- C8, witness: concrete instances discharging the hypotheses of the
amended theorem. -/
theorem c8_witness :
    ((mkRat 5 2 : ℚ).den ≠ 1 ∧
      normalize_number (.float (mkRat 5 2)) = .ok (some (pyRound (mkRat 5 2)))) ∧
    (pyStripList "1 234".toList = "1 234".toList ∧
      stripNonNumber "1 234".toList = intRepr 1234 ∧
      normalize_number (.str (String.mk "1 234".toList)) = .ok (some 1234)) :=
  ⟨⟨by decide, c8_normalize_number_amended.2.2.1 (mkRat 5 2) (by decide)⟩,
   ⟨by decide, by decide,
    c8_normalize_number_amended.2.2.2.2.2.2.2 "1 234".toList (by decide)
      (by decide) (by decide) 1234 (by decide)⟩⟩

/-! ### C9: invalid-votes derivation in fetch_summary -/

/-- Summary row with both operands present but `envelopes_returned = 0`
(a counting night before any envelope is returned). -/
def rowC9 : List PyObj :=
  [.int 100, .int 0, .float (mkRat 0 1), .int 800, .int 0, .none, .none,
    .none, .int 0, .int 0]

def celkemC9 : PyObj := .dict [("prehled", .list rowC9)]

def netC9 : YearNet := {
  fetch := fun r =>
    if r = "vysled/celkem.json" then .resp 200 [] ⟨false, some celkemC9⟩
    else .transportError,
  reval := .resp 304 [] }

/-- C9, counterexample: with `envelopes_returned = 0` and
`valid_votes = 0` both present, `fetch_summary` computes
`invalid_votes = 0` but leaves `invalid_votes_percent` null (the
`if envelopes_returned` truthiness guard), so the percent is not
computed "exactly when both are present". -/
theorem c9_counterexample :
    summaryField (fetch_summary netC9 (Scraper.init 2025 "EN"))
      "envelopes_returned" = some (.int 0) ∧
    summaryField (fetch_summary netC9 (Scraper.init 2025 "EN"))
      "valid_votes" = some (.int 0) ∧
    summaryField (fetch_summary netC9 (Scraper.init 2025 "EN"))
      "invalid_votes" = some (.int 0) ∧
    summaryField (fetch_summary netC9 (Scraper.init 2025 "EN"))
      "invalid_votes_percent" = some PyObj.none :=
  ⟨rfl, rfl, rfl, rfl⟩

theorem summaryOfRow_shape (values : List PyObj) (er vv w0 w1 w3 w4 : Option Int)
    (h0 : _get_number values 0 = .ok w0) (h1 : _get_number values 1 = .ok w1)
    (h3 : _get_number values 3 = .ok w3) (h4 : _get_number values 4 = .ok w4)
    (her : _get_number values 8 = .ok er) (hvv : _get_number values 9 = .ok vv) :
    summaryOfRow values = .ok (.dict ([
      ("wards_total", optIntObj w0),
      ("wards_processed", optIntObj w1),
      ("wards_processed_percent", optRatObj (_get_float values 2)),
      ("voters_in_roll", optIntObj w3),
      ("envelopes_issued", optIntObj w4),
      ("turnout_percent", optRatObj (_get_float values 5)),
      ("envelopes_returned", optIntObj er),
      ("valid_votes", optIntObj vv),
      ("valid_votes_percent", optRatObj (_get_float values 10))] ++
      (match er, vv with
       | some a, some b => [("invalid_votes", .int (a - b)),
           ("invalid_votes_percent",
             if a ≠ 0 then .float (pyRound2 (intDivRat (100 * (a - b)) a))
             else .none)]
       | _, _ => [("invalid_votes", .none), ("invalid_votes_percent", .none)]))) := by
  rw [summaryOfRow]
  simp only [h0, h1, h3, h4, her, hvv]
  cases er <;> cases vv <;> simp [bind, Except.bind]


/-- C9, amended: when both `envelopes_returned` and `valid_votes`
parse to ints, `invalid_votes` is their difference, and
`invalid_votes_percent` is the rounded percentage only when
`envelopes_returned` is also nonzero (null when it is zero); when
either operand is missing both fields are null. -/
theorem c9_fetch_summary_amended (net : YearNet) (s s2 : Scraper)
    (data : List (String × PyObj)) (log : List NetRequest)
    (values : List PyObj) (er vv w0 w1 w3 w4 : Option Int)
    (hnat : _get_national_data net s = .ok (data, s2, log))
    (hrow : pyGetD data "prehled" (.list []) = .list values)
    (h9 : 9 ≤ values.length)
    (h0 : _get_number values 0 = .ok w0) (h1 : _get_number values 1 = .ok w1)
    (h3 : _get_number values 3 = .ok w3) (h4 : _get_number values 4 = .ok w4)
    (her : _get_number values 8 = .ok er) (hvv : _get_number values 9 = .ok vv) :
    ∃ es : List (String × PyObj),
      fetch_summary net s = .ok (.dict es, s2, log) ∧
      (∀ a b : Int, er = some a → vv = some b →
        assocFind es "invalid_votes" = some (.int (a - b)) ∧
        assocFind es "invalid_votes_percent" =
          some (if a = 0 then PyObj.none
            else .float (pyRound2 (100 * ((a : ℚ) - (b : ℚ)) / (a : ℚ))))) ∧
      ((er = Option.none ∨ vv = Option.none) →
        assocFind es "invalid_votes" = some PyObj.none ∧
        assocFind es "invalid_votes_percent" = some PyObj.none) := by
  have hshape := summaryOfRow_shape values er vv w0 w1 w3 w4 h0 h1 h3 h4 her hvv
  have hfetch : ∀ es0 : List (String × PyObj),
      summaryOfRow values = .ok (.dict es0) →
      fetch_summary net s = .ok (.dict es0, s2, log) := by
    intro es0 h
    rw [fetch_summary]
    simp only [hnat, bind, Except.bind, hrow]
    rw [if_neg (by omega), h]
  cases er with
  | none =>
      cases vv with
      | none =>
          refine ⟨_, hfetch _ hshape, ?_, ?_⟩
          · intro a b hab
            cases hab
          · intro _
            constructor <;> simp [assocFind]
      | some b =>
          refine ⟨_, hfetch _ hshape, ?_, ?_⟩
          · intro a b2 hab
            cases hab
          · intro _
            constructor <;> simp [assocFind]
  | some a =>
      cases vv with
      | none =>
          refine ⟨_, hfetch _ hshape, ?_, ?_⟩
          · intro a2 b2 _ hb
            cases hb
          · intro _
            constructor <;> simp [assocFind]
      | some b =>
          refine ⟨_, hfetch _ hshape, ?_, ?_⟩
          · rintro a2 b2 ha hb
            cases ha
            cases hb
            constructor
            · simp [assocFind]
            · have harg : intDivRat (100 * (a - b)) a =
                  100 * ((a : ℚ) - (b : ℚ)) / (a : ℚ) := by
                rw [intDivRat_eq]
                push_cast
                ring_nf
              by_cases hz : a = 0 <;> simp [assocFind, hz, harg]
          · rintro (h | h) <;> cases h

/-! ### Witness fixtures: a small concrete upstream world -/

def rowW : List PyObj :=
  [.int 100, .int 50, .float (mkRat 57 1), .int 800, .int 500,
    .float (mkRat 62 1), .none, .none, .int 200, .int 175,
    .float (mkRat 97 1)]

def vysledkyW : List PyObj :=
  [.list [.int 1, .str "ANO", .int 100, .float (mkRat 50 1), .int 3],
   .list [.int 2, .str "SPOLU", .int 80, .float (mkRat 40 1), .int 0],
   .list [.int 3, .str "STAN", .int 20, .float (mkRat 10 1), .int (-1)]]

def celkemWE : List (String × PyObj) :=
  [("prehled", .list rowW), ("vysledky", .list vysledkyW)]

def mapaWE : List (String × PyObj) := [("kraje", .dict [])]

/-- Upstream world whose conditional GET answers 200 with a new ETag. -/
def netW : YearNet := {
  fetch := fun r =>
    if r = "vysled/celkem.json"
    then .resp 200 [("ETag", "W1")] ⟨false, some (.dict celkemWE)⟩
    else if r = "mapa_vitez.json"
    then .resp 200 [] ⟨false, some (.dict mapaWE)⟩
    else .transportError,
  reval := .resp 200 [("ETag", "W2")] }

/-- Same upstream world, but the conditional GET answers 304. -/
def netW304 : YearNet := { netW with reval := .resp 304 [] }

/-- The scraper state after `_get_national_data` fetched the national
payload of `netW`. -/
def scraperW1 : Scraper :=
  { year := 2025, lang := "EN",
    resource_headers := [("vysled/celkem.json", [("ETag", "W1")])],
    national := some celkemWE, party_lookup := [] }

/-- A well-formed cached dataset (as `_load_cache` would rebuild it). -/
def cachedDataW : PyObj := .dict [
  ("metadata", .dict [("year", .int 2025)]),
  ("summary", .dict [("wards_processed_percent", .float (mkRat 57 1))]),
  ("parties", .list []), ("seats", .list []), ("regions", .list [])]

/-- An on-disk cache payload holding `cachedDataW`. -/
def diskPayloadW (etag : PyObj) (checked_at : ℚ) : PyObj := .dict [
  ("version", .int 1), ("etag", etag), ("checked_at", .float checked_at),
  ("data", _serialize_dataset cachedDataW)]

/-- C9, witness: the amended theorem applied to the concrete world
`netW` (`envelopes_returned = 200`, `valid_votes = 175`). -/
theorem c9_witness :
    ∃ es : List (String × PyObj),
      fetch_summary netW (Scraper.init 2025 "EN") =
        .ok (.dict es, scraperW1, [.get "vysled/celkem.json"]) ∧
      (∀ a b : Int, (some 200 : Option Int) = some a →
        (some 175 : Option Int) = some b →
        assocFind es "invalid_votes" = some (.int (a - b)) ∧
        assocFind es "invalid_votes_percent" =
          some (if a = 0 then PyObj.none
            else .float (pyRound2 (100 * ((a : ℚ) - (b : ℚ)) / (a : ℚ))))) ∧
      (((some 200 : Option Int) = Option.none ∨
          (some 175 : Option Int) = Option.none) →
        assocFind es "invalid_votes" = some PyObj.none ∧
        assocFind es "invalid_votes_percent" = some PyObj.none) :=
  c9_fetch_summary_amended netW (Scraper.init 2025 "EN") scraperW1
    celkemWE [.get "vysled/celkem.json"] rowW (some 200) (some 175)
    (some 100) (some 50) (some 800) (some 500)
    rfl rfl (by decide) rfl rfl rfl rfl rfl rfl

theorem mem_insertDescBy {α : Type} (key : α → Int) (x a : α) :
    ∀ l : List α, a ∈ insertDescBy key x l → a = x ∨ a ∈ l
  | [], h => Or.inl (by rw [insertDescBy] at h; simpa using h)
  | y :: ys, h => by
      rw [insertDescBy] at h
      split at h
      · rcases List.mem_cons.mp h with h1 | h1
        · exact Or.inr (h1 ▸ List.mem_cons_self y ys)
        · rcases mem_insertDescBy key x a ys h1 with h2 | h2
          · exact Or.inl h2
          · exact Or.inr (List.mem_cons_of_mem y h2)
      · rcases List.mem_cons.mp h with h1 | h1
        · exact Or.inl h1
        · exact Or.inr h1

theorem mem_sortDescBy_aux {α : Type} (key : α → Int) (a : α) :
    ∀ (l acc : List α),
      a ∈ l.foldl (fun acc x => insertDescBy key x acc) acc →
      a ∈ acc ∨ a ∈ l
  | [], _, h => Or.inl h
  | x :: xs, acc, h => by
      rcases mem_sortDescBy_aux key a xs (insertDescBy key x acc) h with h1 | h1
      · rcases mem_insertDescBy key x a acc h1 with h2 | h2
        · exact Or.inr (h2 ▸ List.mem_cons_self x xs)
        · exact Or.inl h2
      · exact Or.inr (List.mem_cons_of_mem x h1)

theorem mem_sortDescBy {α : Type} (key : α → Int) (a : α) (l : List α)
    (h : a ∈ sortDescBy key l) : a ∈ l := by
  rcases mem_sortDescBy_aux key a l [] h with h1 | h1
  · simp at h1
  · exact h1

theorem seatRowParse_pos (lk : List (Int × String)) (e : PyObj)
    (t : SeatAllocation) (h : seatRowParse lk e = .ok (some t)) :
    1 ≤ t.mandates := by
  rw [seatRowParse.eq_def] at h
  split at h
  · rename_i v0 v1 v2 v3 v4 tail
    rcases hm : normalize_number v4 with e2 | m
    · rw [hm] at h
      simp [bind, Except.bind] at h
    · rw [hm] at h
      simp only [bind, Except.bind] at h
      split at h
      · cases h
      · rcases hp : normalize_number v0 with e3 | pn
        · rw [hp] at h
          simp [Except.bind] at h
        · rw [hp] at h
          simp only [Except.bind] at h
          cases h
          rename_i hle
          simp only
          omega
  · cases h

theorem seatRowsLoop_pos (lk : List (Int × String)) :
    ∀ (entries : List PyObj) (acc res : List SeatAllocation),
    (∀ t ∈ acc, 1 ≤ t.mandates) → seatRowsLoop lk entries acc = .ok res →
    ∀ t ∈ res, 1 ≤ t.mandates
  | [], acc, res, hacc, h, t, ht => by
      rw [seatRowsLoop] at h
      cases h
      exact hacc t ht
  | e :: rest, acc, res, hacc, h, t, ht => by
      rw [seatRowsLoop] at h
      rcases hr : seatRowParse lk e with e2 | r
      · rw [hr] at h
        simp [bind, Except.bind] at h
      · rw [hr] at h
        simp only [bind, Except.bind] at h
        cases r with
        | none => exact seatRowsLoop_pos lk rest acc res hacc h t ht
        | some u =>
            refine seatRowsLoop_pos lk rest _ res ?_ h t ht
            intro w hw
            rcases List.mem_append.mp hw with h2 | h2
            · exact hacc w h2
            · rcases List.mem_cons.mp h2 with h3 | h3
              · subst h3
                exact seatRowParse_pos lk e w hr
              · simp at h3

/-- C10: every `SeatAllocation` returned by `fetch_seat_allocation`
has at least one mandate; rows whose mandate count is missing or
non-positive never reach the seats list (and a row whose mandate field
makes `int()` raise aborts the whole call, so it appears in no returned
list either). -/
theorem c10_seat_mandates_positive (net : YearNet) (s : Scraper)
    (seats : List SeatAllocation) (s2 : Scraper) (log : List NetRequest)
    (h : fetch_seat_allocation net s = .ok (seats, s2, log)) :
    ∀ t ∈ seats, 1 ≤ t.mandates := by
  rw [fetch_seat_allocation] at h
  rcases hnat : _get_national_data net s with e | ⟨data, s2x, logx⟩
  · rw [hnat] at h
    simp [bind, Except.bind] at h
  · rw [hnat] at h
    simp only [bind, Except.bind] at h
    split at h
    · rename_i entries heq
      split at h
      · simp at h
      · rename_i res hloop
        cases h
        intro t ht
        exact seatRowsLoop_pos _ entries [] res (by simp)
          hloop t (mem_sortDescBy _ t res ht)
    · cases h
      intro t ht
      simp at ht

/-- C10, witness: in the concrete world `netW` the rows with mandate
counts 0 and -1 are dropped and the returned seat has 3 mandates. -/
theorem c10_witness :
    fetch_seat_allocation netW (Scraper.init 2025 "EN") =
      .ok ([⟨"ANO", 3, Option.none⟩], scraperW1, [.get "vysled/celkem.json"]) ∧
    ∀ t ∈ [(⟨"ANO", 3, Option.none⟩ : SeatAllocation)], 1 ≤ t.mandates :=
  ⟨rfl, c10_seat_mandates_positive netW (Scraper.init 2025 "EN") _ _ _ rfl⟩

/-- C4, counterexample: a cache file whose content is the well-formed
JSON array `[]` makes `_load_cache` raise `AttributeError` at
`payload.get("version")` instead of treating the state as a miss. -/
theorem c4_counterexample :
    _load_cache 2025 "EN" (.parsed (.list [])) = .error .attributeError :=
  rfl

/-- C4, amended: `_load_cache` returns `None` without raising for an
absent file, malformed JSON, and a JSON dict whose `version` differs
from the schema version; but a well-formed non-dict payload (array,
string) raises `AttributeError`, so a cache load failure is not always
treated as a silent miss. -/
theorem c4_load_cache_amended :
    (∀ (year : Int) (lang : String),
      _load_cache year lang .absent = .ok Option.none) ∧
    (∀ (year : Int) (lang : String),
      _load_cache year lang .malformedJSON = .ok Option.none) ∧
    (∀ (year : Int) (lang : String) (es : List (String × PyObj)),
      pyEqNum (pyGet es "version") CACHE_VERSION = false →
      _load_cache year lang (.parsed (.dict es)) = .ok Option.none) ∧
    (∀ (year : Int) (lang : String) (items : List PyObj),
      _load_cache year lang (.parsed (.list items)) = .error .attributeError) ∧
    (∀ (year : Int) (lang : String) (s : String),
      _load_cache year lang (.parsed (.str s)) = .error .attributeError) := by
  refine ⟨fun _ _ => rfl, fun _ _ => rfl, fun year lang es h => ?_,
    fun _ _ _ => rfl, fun _ _ _ => rfl⟩
  rw [_load_cache, if_pos]
  rw [h]
  rfl

/-- C4, witness: a concrete wrong-version dict payload loads as a
silent miss. -/
theorem c4_witness :
    pyEqNum (pyGet [("version", PyObj.int 2)] "version") CACHE_VERSION = false ∧
    _load_cache 2025 "EN" (.parsed (.dict [("version", PyObj.int 2)])) =
      .ok Option.none :=
  ⟨by decide,
    c4_load_cache_amended.2.2.1 2025 "EN" [("version", PyObj.int 2)] (by decide)⟩

theorem partyFromDict_asDict (p : PartyResult) :
    partyFromDict (partyAsDict p) = .ok p := rfl

theorem seatFromDict_asDict (t : SeatAllocation) :
    seatFromDict (seatAsDict t) = .ok t := by
  rcases t with ⟨pn, m, c⟩
  cases c <;> rfl

theorem regionFromDict_asDict (r : RegionLeader) :
    regionFromDict (regionAsDict r) = .ok r := by
  rcases r with ⟨rid, rn, lp, lpv, v, pp, c, du⟩
  cases lpv <;> cases v <;> cases pp <;> cases c <;> rfl

theorem mapM_roundtrip {α : Type} (f : PyObj → Except PyErr α) (g : α → PyObj)
    (hfg : ∀ x, f (g x) = .ok x) : ∀ l : List α, (l.map g).mapM f = .ok l
  | [] => rfl
  | x :: xs => by
      rw [List.map_cons, List.mapM_cons, hfg x, mapM_roundtrip f g hfg xs]
      rfl

theorem convSerList_eq_map : ∀ l : List PyObj,
    convSerList l = l.map _convert_serializable
  | [] => rfl
  | x :: xs => by rw [convSerList, convSerList_eq_map xs, List.map_cons]

mutual

theorem convSer_id : ∀ x : PyObj, dataclassFree x = true →
    _convert_serializable x = x
  | .none, _ => rfl
  | .bool _, _ => rfl
  | .int _, _ => rfl
  | .float _, _ => rfl
  | .str _, _ => rfl
  | .list items, h => by
      rw [_convert_serializable,
        convSerList_id items (by rw [dataclassFree] at h; exact h)]
  | .dict es, h => by
      rw [_convert_serializable,
        convSerEntries_id es (by rw [dataclassFree] at h; exact h)]
  | .party _, h => by rw [dataclassFree] at h; cases h
  | .seat _, h => by rw [dataclassFree] at h; cases h
  | .region _, h => by rw [dataclassFree] at h; cases h

theorem convSerList_id : ∀ l : List PyObj, dataclassFreeList l = true →
    convSerList l = l
  | [], _ => rfl
  | x :: xs, h => by
      rw [dataclassFreeList] at h
      rw [Bool.and_eq_true] at h
      rw [convSerList, convSer_id x h.1, convSerList_id xs h.2]

theorem convSerEntries_id : ∀ es : List (String × PyObj),
    dataclassFreeEntries es = true → convSerEntries es = es
  | [], _ => rfl
  | (k, v) :: es, h => by
      rw [dataclassFreeEntries] at h
      rw [Bool.and_eq_true] at h
      rw [convSerEntries, convSer_id v h.1, convSerEntries_id es h.2]

end

theorem c7_roundtrip_core (md sm : PyObj) (hmd : dataclassFree md = true)
    (hsm : dataclassFree sm = true) (ps : List PartyResult)
    (ss : List SeatAllocation) (rs : List RegionLeader) :
    _deserialize_dataset (_serialize_dataset (mkDatasetObj md sm ps ss rs)) =
      .ok (mkDatasetObj md sm ps ss rs) := by
  have hser : _serialize_dataset (mkDatasetObj md sm ps ss rs) =
      .dict [("metadata", md), ("summary", sm),
        ("parties", .list (ps.map partyAsDict)),
        ("seats", .list (ss.map seatAsDict)),
        ("regions", .list (rs.map regionAsDict))] := by
    rw [mkDatasetObj, _serialize_dataset, _convert_serializable]
    rw [show convSerEntries [("metadata", md), ("summary", sm),
        ("parties", .list (ps.map PyObj.party)),
        ("seats", .list (ss.map PyObj.seat)),
        ("regions", .list (rs.map PyObj.region))] =
      [("metadata", _convert_serializable md),
       ("summary", _convert_serializable sm),
       ("parties", _convert_serializable (.list (ps.map PyObj.party))),
       ("seats", _convert_serializable (.list (ss.map PyObj.seat))),
       ("regions", _convert_serializable (.list (rs.map PyObj.region)))]
      from rfl]
    rw [convSer_id md hmd, convSer_id sm hsm]
    simp only [_convert_serializable, convSerList_eq_map, List.map_map]
    rfl
  have h1 : List.mapM.loop partyFromDict (List.map partyAsDict ps) [] =
      Except.ok ps := by
    rw [show List.mapM.loop partyFromDict (List.map partyAsDict ps) [] =
        (ps.map partyAsDict).mapM partyFromDict from rfl,
      mapM_roundtrip partyFromDict partyAsDict partyFromDict_asDict]
  have h2 : List.mapM.loop seatFromDict (List.map seatAsDict ss) [] =
      Except.ok ss := by
    rw [show List.mapM.loop seatFromDict (List.map seatAsDict ss) [] =
        (ss.map seatAsDict).mapM seatFromDict from rfl,
      mapM_roundtrip seatFromDict seatAsDict seatFromDict_asDict]
  have h3 : List.mapM.loop regionFromDict (List.map regionAsDict rs) [] =
      Except.ok rs := by
    rw [show List.mapM.loop regionFromDict (List.map regionAsDict rs) [] =
        (rs.map regionAsDict).mapM regionFromDict from rfl,
      mapM_roundtrip regionFromDict regionAsDict regionFromDict_asDict]
  rw [hser, _deserialize_dataset]
  simp [pyGetD, assocFind, assocSet, bind, Except.bind, mkDatasetObj, h1, h2, h3]

/-- C7: serialization round-trips exactly. For every PartyResult,
SeatAllocation and RegionLeader record, rebuilding from the `asdict`
serialization restores the record field-by-field, and for every dataset
of the module shape (dataclass-free metadata and summary, typed record
lists) `_deserialize_dataset (_serialize_dataset D) = D`. -/
theorem c7_serialization_roundtrip (md sm : PyObj)
    (hmd : dataclassFree md = true) (hsm : dataclassFree sm = true)
    (ps : List PartyResult) (ss : List SeatAllocation)
    (rs : List RegionLeader) :
    _deserialize_dataset (_serialize_dataset (mkDatasetObj md sm ps ss rs)) =
      .ok (mkDatasetObj md sm ps ss rs) ∧
    (∀ p : PartyResult, partyFromDict (_serialize_dataset (.party p)) = .ok p) ∧
    (∀ t : SeatAllocation, seatFromDict (_serialize_dataset (.seat t)) = .ok t) ∧
    (∀ r : RegionLeader, regionFromDict (_serialize_dataset (.region r)) = .ok r) :=
  ⟨c7_roundtrip_core md sm hmd hsm ps ss rs,
    fun p => partyFromDict_asDict p,
    fun t => seatFromDict_asDict t,
    fun r => regionFromDict_asDict r⟩

def mdW : PyObj := .dict [("year", .int 2025), ("lang", .str "EN")]

def smW : PyObj := .dict [("wards_processed_percent", .float (mkRat 57 1))]

def regionW : RegionLeader :=
  ⟨1, "Praha", "ANO", some (mkRat 40 1), some 1000, some (mkRat 57 1),
    some "#a00", "https://www.volby.cz/app/ps2025/cs/results/1"⟩

/-- C7, witness: a concrete dataset round-trips. -/
theorem c7_witness :
    dataclassFree mdW = true ∧ dataclassFree smW = true ∧
    _deserialize_dataset (_serialize_dataset (mkDatasetObj mdW smW
        [⟨1, "ANO", 100, mkRat 50 1⟩] [⟨"ANO", 3, some "#a00"⟩] [regionW])) =
      .ok (mkDatasetObj mdW smW [⟨1, "ANO", 100, mkRat 50 1⟩]
        [⟨"ANO", 3, some "#a00"⟩] [regionW]) :=
  ⟨rfl, rfl,
    (c7_serialization_roundtrip mdW smW rfl rfl [⟨1, "ANO", 100, mkRat 50 1⟩]
      [⟨"ANO", 3, some "#a00"⟩] [regionW]).1⟩

theorem assocFind_assocSet_self {α : Type} (k : String) (v : α) :
    ∀ es : List (String × α), assocFind (assocSet es k v) k = some v
  | [] => by simp [assocSet, assocFind]
  | (k2, v2) :: rest => by
      rw [assocSet]
      split
      · simp [assocFind]
      · rename_i hne
        rw [assocFind, if_neg hne]
        exact assocFind_assocSet_self k v rest

theorem assocFind_assocSet_ne {α : Type} (k k2 : String) (v : α)
    (hne : k ≠ k2) :
    ∀ es : List (String × α), assocFind (assocSet es k v) k2 = assocFind es k2
  | [] => by simp [assocSet, assocFind, hne]
  | (k3, v3) :: rest => by
      rw [assocSet]
      split
      · rename_i heq
        subst heq
        simp [assocFind, hne]
      · rw [assocFind, assocFind]
        split
        · rfl
        · exact assocFind_assocSet_ne k k2 v hne rest

theorem annotate_cache_fields (dataset : PyObj) (year : Int) (lang : String)
    (hit rev : Bool) (etg ca : PyObj) (ds : PyObj)
    (h : _annotate_cache_metadata dataset year lang hit rev
        (some (etg, ca)) = .ok ds) :
    cacheField ds "hit" = some (.bool hit) ∧
    cacheField ds "revalidated" = some (.bool rev) ∧
    cacheField ds "checked_at" = some ca ∧
    cacheField ds "etag" = some etg := by
  rw [_annotate_cache_metadata.eq_def] at h
  split at h
  · split at h
    · cases h
      refine ⟨?_, ?_, ?_, ?_⟩ <;>
        simp [cacheField, metaField, assocFind_assocSet_self, assocFind]
    · cases h
  · cases h

/-- C1: for a loaded cache entry the refresh interval is 3600 seconds
when the cached summary's `wards_processed_percent` is a number `≥ 100`
and 60 seconds otherwise; the entry is stale iff
`now - checked_at ≥ interval`; and a present, fresh entry is returned
annotated `hit = true, revalidated = false` with the disk untouched and
no network request issued (the conclusion holds for every `net`). -/
theorem c1_fresh_cache_policy (net : YearNet) (year : Int) (lang : String) (now : ℚ)
    (disk : DiskState) (entry : CacheEntry) :
    (∀ (es : List (String × PyObj)) (q : ℚ),
      pyGet es "wards_processed_percent" = .float q →
      _refresh_interval (.dict es) = .ok (if 100 ≤ q then 3600 else 60)) ∧
    (∀ (es : List (String × PyObj)) (n : Int),
      pyGet es "wards_processed_percent" = .int n →
      _refresh_interval (.dict es) = .ok (if 100 ≤ n then 3600 else 60)) ∧
    (∀ es : List (String × PyObj),
      pyGet es "wards_processed_percent" = .none →
      _refresh_interval (.dict es) = .ok 60) ∧
    (∀ (t : ℚ) (i : Int), entry.checked_at = .float t →
      _refresh_interval (entrySummary entry) = .ok i →
      _should_revalidate now entry = .ok (decide ((i : ℚ) ≤ now - t))) ∧
    (_load_cache year lang disk = .ok (some entry) →
      _should_revalidate now entry = .ok false →
      _get_dataset_with_cache net year lang now disk =
        (match _annotate_cache_metadata entry.data year lang true false
            (some (entry.etag, entry.checked_at)) with
         | .error e => .error e
         | .ok ds => .ok ⟨ds, disk, []⟩)) := by
  refine ⟨?_, ?_, ?_, ?_, ?_⟩
  · intro es q hq
    rw [_refresh_interval, hq]
    rfl
  · intro es n hn
    rw [_refresh_interval, hn]
    simp only [pyToNum, ratOfInt_eq]
    by_cases h : (100 : Int) ≤ n
    · rw [if_pos h, if_pos (by exact_mod_cast h)]
      rfl
    · rw [if_neg h, if_neg (by exact_mod_cast h)]
      rfl
  · intro es h
    rw [_refresh_interval, h]
    rfl
  · intro t i ht hi
    rw [_should_revalidate]
    simp only [hi, bind, Except.bind, ht, pyToNum]
    rw [ratSub_eq, ratOfInt_eq]
  · intro hload hfresh
    rw [_get_dataset_with_cache]
    simp only [hload, bind, Except.bind, hfresh, Bool.not_false, if_true]
    cases _annotate_cache_metadata entry.data year lang true false
      (some (entry.etag, entry.checked_at)) <;> rfl

def diskW0 : DiskState := .parsed (diskPayloadW (.str "W1") (mkRat 0 1))

/-- The entry `_load_cache` reconstructs from `diskW0`. -/
def entryW : CacheEntry :=
  ⟨cachePathStr 2025 "EN", .str "W1", .float (mkRat 0 1), cachedDataW⟩

/-- C1, witness: with `checked_at = now - 30` and
`wards_processed_percent = 57` the entry is fresh under the 60-second
partial interval and is served from cache. -/
theorem c1_witness :
    _load_cache 2025 "EN" diskW0 = .ok (some entryW) ∧
    _should_revalidate (mkRat 30 1) entryW = .ok false ∧
    _get_dataset_with_cache netW304 2025 "EN" (mkRat 30 1) diskW0 =
      (match _annotate_cache_metadata entryW.data 2025 "EN" true false
          (some (entryW.etag, entryW.checked_at)) with
       | .error e => .error e
       | .ok ds => .ok ⟨ds, diskW0, []⟩) :=
  ⟨rfl, rfl,
    (c1_fresh_cache_policy netW304 2025 "EN" (mkRat 30 1) diskW0
      entryW).2.2.2.2 rfl rfl⟩

theorem store_cache_fields (year : Int) (lang : String) (dataset etag : PyObj)
    (now : ℚ) (payload : PyObj)
    (h : _store_cache year lang dataset etag (some now) now = .ok payload) :
    ∃ pes : List (String × PyObj), payload = .dict pes ∧
      assocFind pes "version" = some (.int 1) ∧
      assocFind pes "etag" = some etag ∧
      assocFind pes "checked_at" = some (.float now) := by
  rw [_store_cache] at h
  rcases hs : stripCacheMeta dataset with e | snapshot
  · rw [hs] at h
    cases h
  · rw [hs] at h
    simp only [bind, Except.bind] at h
    cases h
    refine ⟨_, rfl, ?_, ?_, ?_⟩ <;>
      simp [assocFind, CACHE_VERSION, ite_self]

/-- C3: on a stale entry with a truthy stored ETag and a 304 from the
conditional GET, the policy re-stores the cached dataset with the same
etag and `checked_at = now`, returns it annotated
`hit = true, revalidated = true` (with `checked_at` refreshed in the
annotation), and the only network request is the conditional GET. -/
theorem c3_revalidation_304 (net : YearNet) (year : Int) (lang : String)
    (now : ℚ) (disk : DiskState) (entry : CacheEntry)
    (hdrs : List (String × String))
    (hload : _load_cache year lang disk = .ok (some entry))
    (hstale : _should_revalidate now entry = .ok true)
    (hetag : pyTruthy entry.etag = true)
    (hreval : net.reval = .resp 304 hdrs) :
    _get_dataset_with_cache net year lang now disk =
      (match _store_cache year lang entry.data entry.etag (some now) now with
       | .error e => .error e
       | .ok payload =>
         (match _annotate_cache_metadata entry.data year lang true true
             (some (entry.etag, .float now)) with
          | .error e => .error e
          | .ok ds =>
              .ok ⟨ds, .parsed payload,
                [.conditionalGet (_primary_resource lang)]⟩)) ∧
    (∀ ds : PyObj, _annotate_cache_metadata entry.data year lang true true
        (some (entry.etag, .float now)) = .ok ds →
      cacheField ds "hit" = some (.bool true) ∧
      cacheField ds "revalidated" = some (.bool true) ∧
      cacheField ds "checked_at" = some (.float now) ∧
      cacheField ds "etag" = some entry.etag) ∧
    (∀ payload : PyObj,
      _store_cache year lang entry.data entry.etag (some now) now = .ok payload →
      ∃ pes : List (String × PyObj), payload = .dict pes ∧
        assocFind pes "version" = some (.int 1) ∧
        assocFind pes "etag" = some entry.etag ∧
        assocFind pes "checked_at" = some (.float now)) := by
  refine ⟨?_, ?_, ?_⟩
  · rw [_get_dataset_with_cache]
    simp only [hload, bind, Except.bind, hstale, Bool.not_true, if_false,
      hetag, if_true, _revalidate_primary_resource, hreval, ite_false,
      ite_true]
    rw [if_neg Bool.false_ne_true]
    cases _store_cache year lang entry.data entry.etag (some now) now
    · rfl
    · cases _annotate_cache_metadata entry.data year lang true true
        (some (entry.etag, .float now)) <;> rfl
  · intro ds h
    exact annotate_cache_fields entry.data year lang true true entry.etag
      (.float now) ds h
  · intro payload h
    exact store_cache_fields year lang entry.data entry.etag now payload h

/-- C3, witness: the 304 world re-serves `entryW` at `now = 100`. -/
theorem c3_witness :
    _load_cache 2025 "EN" diskW0 = .ok (some entryW) ∧
    _should_revalidate (mkRat 100 1) entryW = .ok true ∧
    pyTruthy entryW.etag = true ∧
    _get_dataset_with_cache netW304 2025 "EN" (mkRat 100 1) diskW0 =
      (match _store_cache 2025 "EN" entryW.data entryW.etag
          (some (mkRat 100 1)) (mkRat 100 1) with
       | .error e => .error e
       | .ok payload =>
         (match _annotate_cache_metadata entryW.data 2025 "EN" true true
             (some (entryW.etag, .float (mkRat 100 1))) with
          | .error e => .error e
          | .ok ds => .ok ⟨ds, .parsed payload,
              [.conditionalGet (_primary_resource "EN")]⟩)) :=
  ⟨rfl, rfl, rfl,
    (c3_revalidation_304 netW304 2025 "EN" (mkRat 100 1) diskW0 entryW []
      rfl rfl rfl rfl).1⟩

theorem fetch_json_log (net : YearNet) (s : Scraper) (resource : String)
    (p : List (String × PyObj)) (s2 : Scraper) (lg : List NetRequest)
    (h : _fetch_json net s resource = .ok (p, s2, lg)) :
    lg = [.get resource] := by
  rw [_fetch_json.eq_def] at h
  split at h
  · cases h
  · split at h
    · cases h
    · split at h
      · cases h
      · split at h
        · cases h
        · cases h
          rfl
        · cases h

theorem get_national_log (net : YearNet) (s : Scraper)
    (d : List (String × PyObj)) (s2 : Scraper) (lg : List NetRequest)
    (hn : s.national = Option.none)
    (h : _get_national_data net s = .ok (d, s2, lg)) :
    lg = [.get PRIMARY_RESOURCE] := by
  rw [_get_national_data.eq_def, hn] at h
  rcases hf : _fetch_json net s PRIMARY_RESOURCE with e | ⟨p2, s2x, lg2⟩
  · rw [hf] at h
    cases h
  · rw [hf] at h
    simp only [bind, Except.bind] at h
    cases h
    exact fetch_json_log net s PRIMARY_RESOURCE _ _ _ hf

theorem fetch_summary_log (net : YearNet) (s : Scraper) (sm : PyObj)
    (s1 : Scraper) (lg1 : List NetRequest)
    (h : fetch_summary net s = .ok (sm, s1, lg1)) :
    ∃ d, _get_national_data net s = .ok (d, s1, lg1) := by
  rw [fetch_summary] at h
  rcases hnat : _get_national_data net s with e | ⟨d, sx, lgx⟩
  · rw [hnat] at h
    cases h
  · rw [hnat] at h
    simp only [bind, Except.bind] at h
    split at h
    · split at h
      · cases h
      · rcases hrow : summaryOfRow _ with e2 | smv
        · rw [hrow] at h
          cases h
        · rw [hrow] at h
          simp only [Except.bind] at h
          cases h
          exact ⟨d, rfl⟩
    · cases h

theorem fetch_all_primary_log (net : YearNet) (now : ℚ) (s : Scraper)
    (ds : PyObj) (s4 : Scraper) (lg : List NetRequest)
    (hn : s.national = Option.none)
    (h : fetch_all net now s = .ok (ds, s4, lg)) :
    NetRequest.get PRIMARY_RESOURCE ∈ lg := by
  rw [fetch_all] at h
  rcases hsum : fetch_summary net s with e | ⟨sm, s1, lg1⟩
  · rw [hsum] at h
    cases h
  · rw [hsum] at h
    simp only [bind, Except.bind] at h
    rcases hpar : fetch_party_results net s1 with e | ⟨ps, s2, lg2⟩
    · rw [hpar] at h
      cases h
    · rw [hpar] at h
      simp only [bind, Except.bind] at h
      rcases hsea : fetch_seat_allocation net s2 with e | ⟨ts, s3, lg3⟩
      · rw [hsea] at h
        cases h
      · rw [hsea] at h
        simp only [bind, Except.bind] at h
        rcases hreg : fetch_region_leaders net s3 with e | ⟨rg, s4x, lg4⟩
        · rw [hreg] at h
          cases h
        · rw [hreg] at h
          simp only [bind, Except.bind] at h
          cases h
          obtain ⟨d, hnat⟩ := fetch_summary_log net s sm s1 lg1 hsum
          have := get_national_log net s d s1 lg1 hn hnat
          subst this
          simp

theorem fetch_dataset_refetches_primary (net : YearNet) (year : Int)
    (lang : String) (now : ℚ) (pre : Option (List (String × String)))
    (dataset : PyObj) (flog : List NetRequest)
    (h : _fetch_dataset net year lang now pre = .ok (dataset, flog)) :
    NetRequest.get PRIMARY_RESOURCE ∈ flog := by
  have key : ∀ s1 : Scraper, s1.national = Option.none →
      (do
        let r ← fetch_all net now s1
        Except.ok (r.1, r.2.2) : Except PyErr (PyObj × List NetRequest)) =
        .ok (dataset, flog) →
      NetRequest.get PRIMARY_RESOURCE ∈ flog := by
    intro s1 hn hh
    rcases hall : fetch_all net now s1 with e | ⟨ds, s4, lg⟩
    · rw [hall] at hh
      cases hh
    · rw [hall] at hh
      simp only [bind, Except.bind] at hh
      cases hh
      exact fetch_all_primary_log net now s1 _ _ _ hn hall
  rw [_fetch_dataset.eq_def] at h
  cases pre
  · exact key _ rfl h
  · exact key _ rfl h

/-- C2, amended: on a stale entry with truthy stored ETag and a 200
from the conditional GET, the policy injects only the 200 response
HEADERS under the revalidation key and runs a full `fetch_all` in
which every resource, the primary JSON resource included, is fetched
fresh over the network (the 200 body is discarded, so a second request
for the primary data is issued); the entry is stored with the new ETag
from the 200 response (falling back to extraction from the dataset
metadata), and the result is annotated `hit = false,
revalidated = true`. -/
theorem c2_revalidation_200_amended (net : YearNet) (year : Int) (lang : String) (now : ℚ)
    (disk : DiskState) (entry : CacheEntry) (hdrs : List (String × String))
    (hload : _load_cache year lang disk = .ok (some entry))
    (hstale : _should_revalidate now entry = .ok true)
    (hetag : pyTruthy entry.etag = true)
    (hreval : net.reval = .resp 200 hdrs) :
    (_get_dataset_with_cache net year lang now disk =
      (match _fetch_dataset net year lang now (some hdrs) with
       | .error e => .error e
       | .ok (dataset, flog) =>
         (match _store_cache year lang dataset
             (pyOr (pyOr (hdrObj (headerGetCI hdrs "ETag"))
                (hdrObj (headerGetCI hdrs "etag")))
                (_extract_primary_etag dataset lang)) (some now) now with
          | .error e => .error e
          | .ok payload =>
            (match _annotate_cache_metadata dataset year lang false true
                (some (pyOr (pyOr (hdrObj (headerGetCI hdrs "ETag"))
                   (hdrObj (headerGetCI hdrs "etag")))
                   (_extract_primary_etag dataset lang), .float now)) with
             | .error e => .error e
             | .ok ds => .ok ⟨ds, .parsed payload,
                 .conditionalGet (_primary_resource lang) :: flog⟩)))) ∧
    (∀ (dataset : PyObj) (flog : List NetRequest),
      _fetch_dataset net year lang now (some hdrs) = .ok (dataset, flog) →
      NetRequest.get PRIMARY_RESOURCE ∈ flog) ∧
    (∀ (dataset ds etg : PyObj),
      _annotate_cache_metadata dataset year lang false true
        (some (etg, .float now)) = .ok ds →
      cacheField ds "hit" = some (.bool false) ∧
      cacheField ds "revalidated" = some (.bool true)) := by
  refine ⟨?_, ?_, ?_⟩
  · rw [_get_dataset_with_cache]
    simp only [hload, bind, Except.bind, hstale, Bool.not_true, if_false,
      hetag, if_true, _revalidate_primary_resource, hreval, ite_false,
      ite_true]
    rw [if_neg Bool.false_ne_true, if_neg (by decide : ¬ ((200 : Int) = 304))]
    simp only [Except.bind]
    rcases hf : _fetch_dataset net year lang now (some hdrs) with e | ⟨dataset, flog⟩
    · rfl
    · dsimp only
      cases _store_cache year lang dataset
        (pyOr (pyOr (hdrObj (headerGetCI hdrs "ETag"))
          (hdrObj (headerGetCI hdrs "etag")))
          (_extract_primary_etag dataset lang)) (some now) now
      · rfl
      · cases _annotate_cache_metadata dataset year lang false true
          (some (pyOr (pyOr (hdrObj (headerGetCI hdrs "ETag"))
            (hdrObj (headerGetCI hdrs "etag")))
            (_extract_primary_etag dataset lang), .float now)) <;> rfl
  · intro dataset flog hf
    exact fetch_dataset_refetches_primary net year lang now (some hdrs)
      dataset flog hf
  · intro dataset ds etg h
    have := annotate_cache_fields dataset year lang false true etg
      (.float now) ds h
    exact ⟨this.1, this.2.1⟩

/-- C2, counterexample: in the 200-revalidation world the policy issues
the conditional GET and then also fetches the primary JSON resource
over the network during re-extraction, so the "already-fetched response
body" is not reused and a further request for the primary resource is
issued, contrary to the claim. -/
theorem c2_counterexample :
    NetRequest.conditionalGet (_primary_resource "EN") ∈
      policyLog (_get_dataset_with_cache netW 2025 "EN" (mkRat 100 1) diskW0) ∧
    NetRequest.get PRIMARY_RESOURCE ∈
      policyLog (_get_dataset_with_cache netW 2025 "EN" (mkRat 100 1) diskW0) :=
  ⟨by decide, by decide⟩

/-- C2, witness: the amended theorem applied to the concrete 200
world. -/
theorem c2_witness :
    _load_cache 2025 "EN" diskW0 = .ok (some entryW) ∧
    _should_revalidate (mkRat 100 1) entryW = .ok true ∧
    pyTruthy entryW.etag = true ∧
    netW.reval = .resp 200 [("ETag", "W2")] ∧
    (∀ (dataset : PyObj) (flog : List NetRequest),
      _fetch_dataset netW 2025 "EN" (mkRat 100 1)
        (some [("ETag", "W2")]) = .ok (dataset, flog) →
      NetRequest.get PRIMARY_RESOURCE ∈ flog) :=
  ⟨rfl, rfl, rfl, rfl,
    (c2_revalidation_200_amended netW 2025 "EN" (mkRat 100 1) diskW0 entryW
      [("ETag", "W2")] rfl rfl rfl rfl).2.1⟩

/-- The `resource_headers` map of a successful policy run's dataset
metadata, looked up at a resource key. -/
def policyResourceHeaders (r : Except PyErr PolicyOut) (res : String) :
    Option PyObj :=
  match r with
  | .ok o =>
      (match metaField o.dataset "resource_headers" with
      | some (.dict hm) => assocFind hm res
      | _ => Option.none)
  | .error _ => Option.none

/-- C6, code bug: `_fetch_json` keys `resource_headers` by the fetched
resource identifier (`"vysled/celkem.json"` for the primary dataset),
but `_extract_primary_etag` looks the map up under
`_primary_resource lang = "ps2?xjazyk=" ++ lang`, a key never written
by a plain (non-revalidating) fetch.  Hence after a plain full fetch
on an empty cache whose primary response carries `ETag: "W1"`, the
header is present in the dataset metadata under the primary resource's
key, yet the lookup key differs, the extraction misses, and the cache
entry is stored with `etag = None` instead of `"W1"`. -/
theorem c6_etag_key_mismatch :
    _primary_resource "EN" ≠ PRIMARY_RESOURCE ∧
    policyResourceHeaders
        (_get_dataset_with_cache netW 2025 "EN" (mkRat 100 1) .absent)
        PRIMARY_RESOURCE = some (headersObj [("ETag", "W1")]) ∧
    policyResourceHeaders
        (_get_dataset_with_cache netW 2025 "EN" (mkRat 100 1) .absent)
        (_primary_resource "EN") = Option.none ∧
    policyDiskEtag
        (_get_dataset_with_cache netW 2025 "EN" (mkRat 100 1) .absent) =
      some PyObj.none :=
  ⟨by decide, rfl, rfl, rfl⟩

/-- A successful `_annotate_cache_metadata` yields a dict dataset whose
`metadata` entry is a dict. -/
theorem annotate_ok_shape (d : PyObj) (y : Int) (l : String) (hh rr : Bool)
    (ce : Option (PyObj × PyObj)) (ds : PyObj)
    (hok : _annotate_cache_metadata d y l hh rr ce = .ok ds) :
    ∃ es ms, ds = .dict es ∧ assocFind es "metadata" = some (.dict ms) := by
  rw [_annotate_cache_metadata.eq_def] at hok
  split at hok
  · split at hok
    · cases hok
      exact ⟨_, _, rfl, assocFind_assocSet_self "metadata" _ _⟩
    · exact Except.noConfusion hok
  · exact Except.noConfusion hok

/-- A successful full-fetch policy run yields a dict dataset with a
dict `metadata` entry. -/
theorem policyFullFetch_shape (net : YearNet) (year : Int) (lang : String)
    (now : ℚ) (out : PolicyOut)
    (hok : policyFullFetch net year lang now = .ok out) :
    ∃ es ms, out.dataset = .dict es ∧ assocFind es "metadata" = some (.dict ms) := by
  rw [policyFullFetch] at hok
  simp only [bind, Except.bind] at hok
  rcases hf : _fetch_dataset net year lang now Option.none with e | ⟨dataset, flog⟩ <;> rw [hf] at hok
  · exact Except.noConfusion hok
  · dsimp only at hok
    rcases hs : _store_cache year lang dataset (_extract_primary_etag dataset lang) (some now) now with e | payload <;> rw [hs] at hok
    · exact Except.noConfusion hok
    · dsimp only at hok
      rcases ha : _annotate_cache_metadata dataset year lang false false
          (some (_extract_primary_etag dataset lang, .float now)) with e | ds <;> rw [ha] at hok
      · exact Except.noConfusion hok
      · cases hok
        exact annotate_ok_shape _ _ _ _ _ _ _ ha

/-- Every successful `_get_dataset_with_cache` run yields a dict
dataset with a dict `metadata` entry (every branch returns through
`_annotate_cache_metadata`). -/
theorem policy_dataset_shape (net : YearNet) (year : Int) (lang : String)
    (now : ℚ) (disk : DiskState) (out : PolicyOut)
    (hok : _get_dataset_with_cache net year lang now disk = .ok out) :
    ∃ es ms, out.dataset = .dict es ∧ assocFind es "metadata" = some (.dict ms) := by
  rw [_get_dataset_with_cache] at hok
  simp only [bind, Except.bind] at hok
  rcases hl : _load_cache year lang disk with e | entry? <;> rw [hl] at hok
  · exact Except.noConfusion hok
  · rcases entry? with _ | entry
    · exact policyFullFetch_shape net year lang now out hok
    · dsimp only at hok
      rcases hsv : _should_revalidate now entry with e | stale <;> rw [hsv] at hok
      · exact Except.noConfusion hok
      · dsimp only at hok
        cases stale
        · rw [Bool.not_false, if_pos rfl] at hok
          rcases ha : _annotate_cache_metadata entry.data year lang true false
              (some (entry.etag, entry.checked_at)) with e | ds <;> rw [ha] at hok
          · exact Except.noConfusion hok
          · cases hok
            exact annotate_ok_shape _ _ _ _ _ _ _ ha
        · rw [Bool.not_true, if_neg Bool.false_ne_true] at hok
          rcases ht : pyTruthy entry.etag with _ | _ <;> rw [ht] at hok
          · rw [if_neg Bool.false_ne_true] at hok
            exact policyFullFetch_shape net year lang now out hok
          · rw [if_pos rfl] at hok
            rcases hr : _revalidate_primary_resource net year lang entry.etag with e | ⟨chg, prefetched, new_etag⟩ <;> rw [hr] at hok
            · exact Except.noConfusion hok
            · dsimp only at hok
              cases chg
              · simp only [bind, Except.bind] at hok
                rcases hs : _store_cache year lang entry.data entry.etag (some now) now with e | payload <;> rw [hs] at hok
                · exact Except.noConfusion hok
                · dsimp only at hok
                  rcases ha : _annotate_cache_metadata entry.data year lang true true
                      (some (entry.etag, .float now)) with e | ds <;> rw [ha] at hok
                  · exact Except.noConfusion hok
                  · cases hok
                    exact annotate_ok_shape _ _ _ _ _ _ _ ha
              · simp only [bind, Except.bind] at hok
                rcases hf : _fetch_dataset net year lang now prefetched with e | ⟨dataset, flog⟩ <;> rw [hf] at hok
                · exact Except.noConfusion hok
                · dsimp only at hok
                  rcases hs : _store_cache year lang dataset (pyOr new_etag (_extract_primary_etag dataset lang)) (some now) now with e | payload <;> rw [hs] at hok
                  · exact Except.noConfusion hok
                  · dsimp only at hok
                    rcases ha : _annotate_cache_metadata dataset year lang false true
                        (some (pyOr new_etag (_extract_primary_etag dataset lang), .float now)) with e | ds <;> rw [ha] at hok
                    · exact Except.noConfusion hok
                    · cases hok
                      exact annotate_ok_shape _ _ _ _ _ _ _ ha

/-- The three `gather_election_data` metadata stamps land in the
result and read back as written. -/
theorem setFallbackMeta_fields (es ms : List (String × PyObj))
    (hmeta : assocFind es "metadata" = some (.dict ms))
    (eff req : Int) (fb : Bool) :
    ∃ ds, setFallbackMeta (.dict es) eff req fb = .ok ds ∧
      metaField ds "effective_year" = some (.int eff) ∧
      metaField ds "requested_year" = some (.int req) ∧
      metaField ds "fallback_used" = some (.bool fb) := by
  have hget : pyGetD es "metadata" (.dict []) = .dict ms := by
    rw [pyGetD, hmeta]; rfl
  refine ⟨.dict (assocSet es "metadata" (.dict
      (assocSet (assocSet (assocSet ms "effective_year" (.int eff))
        "requested_year" (.int req)) "fallback_used" (.bool fb)))),
    ?_, ?_, ?_, ?_⟩
  · dsimp only [setFallbackMeta]
    rw [hget]
  · dsimp only [metaField]
    rw [assocFind_assocSet_self]
    dsimp only
    rw [assocFind_assocSet_ne "fallback_used" "effective_year" _ (by decide),
      assocFind_assocSet_ne "requested_year" "effective_year" _ (by decide),
      assocFind_assocSet_self]
  · dsimp only [metaField]
    rw [assocFind_assocSet_self]
    dsimp only
    rw [assocFind_assocSet_ne "fallback_used" "requested_year" _ (by decide),
      assocFind_assocSet_self]
  · dsimp only [metaField]
    rw [assocFind_assocSet_self]
    dsimp only
    rw [assocFind_assocSet_self]

/-- C5: `gather_election_data` uppercases the language and runs the
cache policy for `year`.  On success the result carries
`effective_year = requested_year = year` and `fallback_used = false`
regardless of the configured fallback.  If the policy for `year` fails
with `ElectionDataUnavailable` and a fallback year distinct from
`year` is configured, the full policy is retried exactly once for the
fallback year and a successful retry carries
`effective_year = fallback_year`, `requested_year = year`,
`fallback_used = true`.  If the fallback is unset or equal to `year`,
the original failure propagates; if the fallback attempt itself fails,
its failure propagates (no further chaining). -/
theorem c5_gather_fallback (net : Int → YearNet) (diskOf : Int → DiskState)
    (year : Int) (lang : String) (now : ℚ) :
    (∀ (fallback_year : Option Int) (out : PolicyOut),
      _get_dataset_with_cache (net year) year (strUpper lang) now (diskOf year) = .ok out →
      ∃ ds, gather_election_data net diskOf year fallback_year lang now = .ok ds ∧
        metaField ds "effective_year" = some (.int year) ∧
        metaField ds "requested_year" = some (.int year) ∧
        metaField ds "fallback_used" = some (.bool false)) ∧
    (∀ (fy y2 : Int) (r : String) (st : Option Int) (rs : Option String) (out2 : PolicyOut),
      fy ≠ year →
      _get_dataset_with_cache (net year) year (strUpper lang) now (diskOf year) =
        .error (.dataUnavailable y2 r st rs) →
      _get_dataset_with_cache (net fy) fy (strUpper lang) now (diskOf fy) = .ok out2 →
      ∃ ds, gather_election_data net diskOf year (some fy) lang now = .ok ds ∧
        metaField ds "effective_year" = some (.int fy) ∧
        metaField ds "requested_year" = some (.int year) ∧
        metaField ds "fallback_used" = some (.bool true)) ∧
    (∀ (y2 : Int) (r : String) (st : Option Int) (rs : Option String),
      _get_dataset_with_cache (net year) year (strUpper lang) now (diskOf year) =
        .error (.dataUnavailable y2 r st rs) →
      gather_election_data net diskOf year Option.none lang now =
        .error (.dataUnavailable y2 r st rs) ∧
      gather_election_data net diskOf year (some year) lang now =
        .error (.dataUnavailable y2 r st rs)) ∧
    (∀ (fy y2 : Int) (r : String) (st : Option Int) (rs : Option String) (e2 : PyErr),
      fy ≠ year →
      _get_dataset_with_cache (net year) year (strUpper lang) now (diskOf year) =
        .error (.dataUnavailable y2 r st rs) →
      _get_dataset_with_cache (net fy) fy (strUpper lang) now (diskOf fy) = .error e2 →
      gather_election_data net diskOf year (some fy) lang now = .error e2) := by
  refine ⟨?_, ?_, ?_, ?_⟩
  · intro fallback_year out hok
    obtain ⟨es, ms, hes, hms⟩ := policy_dataset_shape _ _ _ _ _ _ hok
    obtain ⟨ds, hset, h1, h2, h3⟩ := setFallbackMeta_fields es ms hms year year false
    refine ⟨ds, ?_, h1, h2, h3⟩
    rw [gather_election_data]
    rw [hok]
    dsimp only
    rw [hes]
    exact hset
  · intro fy y2 r st rs out2 hfy herr hok2
    obtain ⟨es, ms, hes, hms⟩ := policy_dataset_shape _ _ _ _ _ _ hok2
    obtain ⟨ds, hset, h1, h2, h3⟩ := setFallbackMeta_fields es ms hms fy year true
    refine ⟨ds, ?_, h1, h2, h3⟩
    rw [gather_election_data]
    rw [herr]
    dsimp only
    rw [if_neg hfy, hok2]
    dsimp only
    rw [hes]
    exact hset
  · intro y2 r st rs herr
    constructor
    · rw [gather_election_data]
      rw [herr]
    · rw [gather_election_data]
      rw [herr]
      dsimp only
      rw [if_pos rfl]
  · intro fy y2 r st rs e2 hfy herr hok2
    rw [gather_election_data]
    rw [herr]
    dsimp only
    rw [if_neg hfy, hok2]

/-- A year whose upstream is entirely unreachable. -/
def netFailC5 : YearNet :=
  { fetch := fun _ => .transportError, reval := .transportError }

/-- Fallback world: 2025 is down, every other year serves `netW`. -/
def netC5 : Int → YearNet := fun y => if y = 2025 then netFailC5 else netW

def diskC5 : Int → DiskState := fun _ => .absent

/-- The successful 2021 policy run of the fallback world. -/
def outC5 : PolicyOut :=
  match _get_dataset_with_cache (netC5 2021) 2021 (strUpper "en")
      (mkRat 100 1) (diskC5 2021) with
  | .ok o => o
  | .error _ => ⟨.none, .absent, []⟩

/-- C5, witness: the fallback clause of the theorem applied to the
concrete world where 2025 is unreachable and 2021 succeeds. -/
theorem c5_witness :
    (2021 : Int) ≠ 2025 ∧
    _get_dataset_with_cache (netC5 2025) 2025 (strUpper "en") (mkRat 100 1)
        (diskC5 2025) =
      .error (.dataUnavailable 2025 "vysled/celkem.json"
        Option.none Option.none) ∧
    _get_dataset_with_cache (netC5 2021) 2021 (strUpper "en") (mkRat 100 1)
        (diskC5 2021) = .ok outC5 ∧
    ∃ ds, gather_election_data netC5 diskC5 2025 (some 2021) "en"
        (mkRat 100 1) = .ok ds ∧
      metaField ds "effective_year" = some (.int 2021) ∧
      metaField ds "requested_year" = some (.int 2025) ∧
      metaField ds "fallback_used" = some (.bool true) :=
  ⟨by decide, rfl, rfl,
    (c5_gather_fallback netC5 diskC5 2025 "en" (mkRat 100 1)).2.1 2021 2025
      "vysled/celkem.json" Option.none Option.none outC5 (by decide) rfl rfl⟩
